import Mathlib

/- Verification model of the minceraft voxel world engine.

   Shallow embedding of src/constants.ts, src/types.ts, src/game/Chunk.ts and
   src/game/Engine.ts.  JavaScript numbers are modelled as rationals and
   JavaScript integer indices as integers or naturals.  The external
   simplex-noise library (createNoise2D / createNoise3D), Math.sin and
   Math.random are modelled as oracle parameters: the noise functions and
   Math.sin are arbitrary pure functions (the library derives them
   deterministically from the seed), while Math.random is an arbitrary
   stream of draws consumed in call order, which captures its
   nondeterminism.  Uint8Array cells hold block codes (all < 256), reads and
   writes out of the array bounds are dropped, matching typed-array
   semantics.  Constants from src/constants.ts: CHUNK_SIZE = 16,
   CHUNK_HEIGHT = 256, SEA_LEVEL = 63; they appear as literals below exactly
   where the source uses them (the source itself mixes the named constants
   with the literal 256 stride). -/

namespace Minceraft

/-! ## Block type codes (src/types.ts, enum BlockType) -/

def AIR : ℕ := 0
def GRASS : ℕ := 1
def DIRT : ℕ := 2
def STONE : ℕ := 3
def WOOD : ℕ := 4
def LEAVES : ℕ := 5
def SAND : ℕ := 6
def BRICK : ℕ := 7
def SNOW : ℕ := 8
def ICE : ℕ := 9
def CACTUS : ℕ := 10
def TALL_GRASS : ℕ := 11
def WATER : ℕ := 12
def SANDSTONE : ℕ := 13
def GRAVEL : ℕ := 14
def RED_SAND : ℕ := 15
def CLAY : ℕ := 16
def PODZOL : ℕ := 17
def PLANKS : ℕ := 18
def BEDROCK : ℕ := 19
def BIRCH_LOG : ℕ := 20
def BIRCH_LEAVES : ℕ := 21
def SPRUCE_LOG : ℕ := 22
def SPRUCE_LEAVES : ℕ := 23
def JUNGLE_LOG : ℕ := 24
def JUNGLE_LEAVES : ℕ := 25
def ACACIA_LOG : ℕ := 26
def ACACIA_LEAVES : ℕ := 27
def CRAFTING_TABLE : ℕ := 28
def COBBLESTONE : ℕ := 29
def STICK : ℕ := 30
def DIAMOND_BLOCK : ℕ := 31
def COAL_ORE : ℕ := 32
def COAL : ℕ := 33
def TORCH : ℕ := 34
def WOODEN_PICKAXE : ℕ := 35
def WOODEN_AXE : ℕ := 36
def WOODEN_SHOVEL : ℕ := 37
def WOODEN_SWORD : ℕ := 38
def STONE_PICKAXE : ℕ := 39
def STONE_AXE : ℕ := 40
def STONE_SHOVEL : ℕ := 41
def STONE_SWORD : ℕ := 42
def RAW_BEEF : ℕ := 43
def PORKCHOP : ℕ := 44
def MUTTON : ℕ := 45
def ROTTEN_FLESH : ℕ := 46
def FLOWING_WATER : ℕ := 47

/-- Tool categories (src/types.ts, type ToolType). -/
inductive ToolType where
  | pickaxe
  | axe
  | shovel
  | sword
deriving DecidableEq

/-- Block descriptor (src/types.ts, interface BlockProp).  Optional fields
are Options so that the JavaScript distinction between an absent field
(undefined) and a present one is kept; the display-only fields name and
color are omitted. -/
structure BlockProp where
  transparent : Option Bool := none
  cross : Option Bool := none
  fluid : Option Bool := none
  hardness : Option ℚ := none
  isItem : Option Bool := none
  toolType : Option ToolType := none
  efficiency : Option ℚ := none
  damage : Option ℚ := none
  emissive : Option Bool := none
  healAmount : Option ℚ := none
deriving DecidableEq

/-- The block descriptor table (src/constants.ts, BLOCK_PROPS), as an
association list keyed by block code.  JavaScript objects with integer-like
keys iterate in ascending numeric order, so the list is sorted by code. -/
def propList : List (ℕ × BlockProp) :=
  [ (1,  { hardness := some 0.6, toolType := some .shovel }),
    (2,  { hardness := some 0.5, toolType := some .shovel }),
    (3,  { hardness := some 1.5, toolType := some .pickaxe }),
    (4,  { hardness := some 2.0, toolType := some .axe }),
    (5,  { transparent := some true, hardness := some 0.2 }),
    (6,  { hardness := some 0.5, toolType := some .shovel }),
    (7,  { hardness := some 2.0, toolType := some .pickaxe }),
    (8,  { hardness := some 0.3, toolType := some .shovel }),
    (9,  { transparent := some true, hardness := some 0.5 }),
    (10, { hardness := some 0.4 }),
    (11, { cross := some true, transparent := some true, hardness := some 0.0 }),
    (12, { transparent := some true, fluid := some true, hardness := some (-1) }),
    (13, { hardness := some 0.8, toolType := some .pickaxe }),
    (14, { hardness := some 0.6, toolType := some .shovel }),
    (15, { hardness := some 0.5, toolType := some .shovel }),
    (16, { hardness := some 0.6, toolType := some .shovel }),
    (17, { hardness := some 0.6, toolType := some .shovel }),
    (18, { hardness := some 1.5, toolType := some .axe }),
    (19, { hardness := some (-1) }),
    (20, { hardness := some 2.0, toolType := some .axe }),
    (21, { transparent := some true, hardness := some 0.2 }),
    (22, { hardness := some 2.0, toolType := some .axe }),
    (23, { transparent := some true, hardness := some 0.2 }),
    (24, { hardness := some 2.0, toolType := some .axe }),
    (25, { transparent := some true, hardness := some 0.2 }),
    (26, { hardness := some 2.0, toolType := some .axe }),
    (27, { transparent := some true, hardness := some 0.2 }),
    (28, { hardness := some 2.5, toolType := some .axe }),
    (29, { hardness := some 2.0, toolType := some .pickaxe }),
    (30, { hardness := some 0.1, isItem := some true }),
    (31, { hardness := some 5.0, toolType := some .pickaxe }),
    (32, { hardness := some 3.0, toolType := some .pickaxe }),
    (33, { isItem := some true, hardness := some 0 }),
    (34, { transparent := some true, hardness := some 0.0, emissive := some true }),
    (35, { isItem := some true, hardness := some 0, toolType := some .pickaxe, efficiency := some 2.0 }),
    (36, { isItem := some true, hardness := some 0, toolType := some .axe, efficiency := some 2.0 }),
    (37, { isItem := some true, hardness := some 0, toolType := some .shovel, efficiency := some 2.0 }),
    (38, { isItem := some true, hardness := some 0, toolType := some .sword, damage := some 4.0 }),
    (39, { isItem := some true, hardness := some 0, toolType := some .pickaxe, efficiency := some 4.0 }),
    (40, { isItem := some true, hardness := some 0, toolType := some .axe, efficiency := some 4.0 }),
    (41, { isItem := some true, hardness := some 0, toolType := some .shovel, efficiency := some 4.0 }),
    (42, { isItem := some true, hardness := some 0, toolType := some .sword, damage := some 5.0 }),
    (43, { isItem := some true, healAmount := some 3 }),
    (44, { isItem := some true, healAmount := some 3 }),
    (45, { isItem := some true, healAmount := some 3 }),
    (46, { isItem := some true, healAmount := some 1 }),
    (47, { transparent := some true, fluid := some true, hardness := some (-1) }) ]

/-- BLOCK_PROPS[id]: table lookup, none when the code has no entry. -/
def BLOCK_PROPS (id : ℕ) : Option BlockProp := propList.lookup id

/-- Truthiness of the optional chain BLOCK_PROPS[id]?.cross. -/
def propCross (id : ℕ) : Bool := ((BLOCK_PROPS id).bind (·.cross)).getD false

/-- Truthiness of the optional chain BLOCK_PROPS[id]?.fluid. -/
def propFluid (id : ℕ) : Bool := ((BLOCK_PROPS id).bind (·.fluid)).getD false

/-- The test BLOCK_PROPS[id]?.fluid === undefined (true when the block has
no entry at all or its entry carries no fluid field). -/
def propFluidUndefined (id : ℕ) : Bool := ((BLOCK_PROPS id).bind (·.fluid)).isNone

/-! ## JavaScript arithmetic helpers -/

/-- JavaScript q % 1 for nonnegative q: the fractional part. -/
def jsMod1 (q : ℚ) : ℚ := q - ⌊q⌋

/-- JavaScript ((a % 16) + 16) % 16 with the truncating JavaScript % . -/
def jsWrapMod16 (a : ℤ) : ℤ := (a.tmod 16 + 16).tmod 16

/-! ## Terrain synthesis (src/game/Chunk.ts, ChunkManager) -/

/-- A chunk voxel buffer: Uint8Array of length 16*16*256 = 65536, indexed by
x + z*16 + y*256, modelled as a total function on indices (cells outside
the array are never meaningfully read by the translated code). -/
def VoxelData : Type := ℕ → ℕ

/-- Write d[i] = v with typed-array semantics: out-of-range writes are
silently dropped. -/
def bufWrite (d : VoxelData) (i : ℤ) (v : ℕ) : VoxelData :=
  fun j => if (j : ℤ) = i ∧ 0 ≤ i ∧ i < 65536 then v else d j

/-- The oracle bundling the ambient impure functions of the source:
the two seeded simplex-noise samplers, Math.sin and the Math.random
stream (indexed by the number of draws made so far). -/
structure GenOracle where
  noise2D : ℚ → ℚ → ℚ
  noise3D : ℚ → ℚ → ℚ → ℚ
  jsSin : ℚ → ℚ
  random : ℕ → ℚ

/-- ChunkManager.rand: the deterministic per-column placement hash
(Chunk.ts line 29). -/
def chunkRand (o : GenOracle) (x z seed : ℚ) : ℚ :=
  jsMod1 |o.jsSin (x * 12.9898 + z * 78.233 + seed) * 43758.5453|

inductive WorldType where
  | Default
  | Flat
  | Mountains
deriving DecidableEq

/-- Per-column result of the first generation pass: the height entry
heights[x + z*16], the biome id biomeMap[x + z*16] and the chosen surface
and sub-surface blocks. -/
structure ColInfo where
  h : ℤ
  biomeId : ℕ
  surface : ℕ
  sub : ℕ
deriving DecidableEq, Inhabited

/-- One column of the height / biome pass of generateChunkData
(Chunk.ts lines 82-175).  k is the number of Math.random draws consumed so
far; the pass draws once per column that reaches the temperate-biome branch. -/
def genColumn (o : GenOracle) (offset : ℚ) (worldType : WorldType) (cx cz : ℤ)
    (x z : ℕ) (k : ℕ) : ColInfo × ℕ :=
  let wx : ℚ := (cx * 16 + x : ℤ) + offset
  let wz : ℚ := (cz * 16 + z : ℤ) + offset
  let cont := o.noise2D (wx * 0.0006) (wz * 0.0006)
  let temp := o.noise2D (wx * 0.0008 + 100) (wz * 0.0008 + 100)
  let moisture := o.noise2D (wx * 0.0008 + 500) (wz * 0.0008 + 500)
  let warpStrength : ℚ := 20
  let warpX := o.noise2D (wx * 0.004) (wz * 0.004) * warpStrength
  let warpZ := o.noise2D (wx * 0.004 + 1000) (wz * 0.004 + 1000) * warpStrength
  let riverNoise := |o.noise2D ((wx + warpX) * 0.0008) ((wz + warpZ) * 0.0008)|
  let noise := o.noise2D (wx * 0.005) (wz * 0.005) + o.noise2D (wx * 0.01) (wz * 0.01) * 0.5
  let terrainHeight : ℚ :=
    if worldType = WorldType.Mountains then
      let t0 : ℚ := 63 + 40 + cont * 80 + noise * 30
      if cont > 0 then t0 + cont ^ (2 : ℕ) * 150 else t0
    else
      if cont < -0.4 then
        63 - 5 - |cont + 0.4| * 30
      else
        let base : ℚ := 63 + 8 + cont * 20 + noise * 10
        if cont > 0.3 then
          let t := (cont - 0.3) / 0.7
          let smoothT := t * t * (3 - 2 * t)
          let n1 := o.noise2D (wx * 0.03) (wz * 0.03)
          let n2 := o.noise2D (wx * 0.06) (wz * 0.06)
          let n3 := o.noise2D (wx * 0.12) (wz * 0.12)
          let bumps := n1 + n2 * 0.5 + n3 * 0.25
          base + smoothT * 100 + bumps * 25 * smoothT
        else base
  let terrainHeight : ℚ :=
    if riverNoise < 0.08 ∧ cont > -0.3 ∧ cont < 0.2 then
      let riverDepth := (0.08 - riverNoise) / 0.08
      let riverBed : ℚ := 63 - 2
      terrainHeight * (1 - riverDepth) + riverBed * riverDepth
    else terrainHeight
  let h0 : ℤ := ⌊terrainHeight⌋
  let h1 : ℤ := if h0 < 1 then 1 else h0
  let h : ℤ := if h1 ≥ 256 - 5 then 256 - 6 else h1
  if h < 63 then
    ({ h := h, biomeId := 10, surface := SAND, sub := GRAVEL }, k)
  else if h > 130 then
    ({ h := h, biomeId := 5, surface := SNOW, sub := STONE }, k)
  else if h > 110 ∧ temp < 0.3 then
    ({ h := h, biomeId := 5, surface := SNOW, sub := STONE }, k)
  else
    let d := (o.random k - 0.5) * 0.1
    let ci : ColInfo :=
      if temp + d > 0.5 then
        if moisture + d < -0.3 then { h := h, biomeId := 1, surface := SAND, sub := SANDSTONE }
        else if moisture + d > 0.4 then { h := h, biomeId := 3, surface := GRASS, sub := DIRT }
        else { h := h, biomeId := 2, surface := GRASS, sub := DIRT }
      else if temp + d < -0.4 then { h := h, biomeId := 5, surface := SNOW, sub := DIRT }
      else
        if moisture + d > 0.3 then { h := h, biomeId := 7, surface := PODZOL, sub := DIRT }
        else if moisture + d < -0.3 then { h := h, biomeId := 0, surface := GRASS, sub := DIRT }
        else if moisture + d > 0.1 then { h := h, biomeId := 4, surface := GRASS, sub := DIRT }
        else { h := h, biomeId := 6, surface := GRASS, sub := DIRT }
    (ci, k + 1)

/-- The full height / biome pass: iterates x then z (the loop order of the
source) producing the heights and biomeMap tables as a function of the
slot x + z*16, together with the final Math.random counter. -/
def genColumns (o : GenOracle) (offset : ℚ) (worldType : WorldType) (cx cz : ℤ) :
    (ℕ → ColInfo) × ℕ :=
  (List.range 16).foldl (fun acc x =>
    (List.range 16).foldl (fun acc z =>
      let ck := genColumn o offset worldType cx cz x z acc.2
      (fun i => if i = x + z * 16 then ck.1 else acc.1 i, ck.2)) acc)
    (fun _ => default, 0)

/-- The vertical-fill value of generateChunkData at one cell
(Chunk.ts lines 177-207): bedrock floor, stone with ore gating, sub-surface
and surface layers, sea-level water, then cave carving.  Each cell of the
buffer is written exactly once by the source loop, so the pass is a pure
function of the cell. -/
def fillCell (o : GenOracle) (offset : ℚ) (cx cz : ℤ) (x z : ℕ) (ci : ColInfo) (y : ℕ) : ℕ :=
  let wx : ℚ := (cx * 16 + x : ℤ) + offset
  let wz : ℚ := (cz * 16 + z : ℤ) + offset
  let blockID : ℕ :=
    if y = 0 then BEDROCK
    else if (y : ℤ) < ci.h - 3 then
      if o.noise3D (wx * 0.08) ((y : ℚ) * 0.08) (wz * 0.08) > 0.6 then COAL_ORE else STONE
    else if (y : ℤ) < ci.h then ci.sub
    else if (y : ℤ) = ci.h then
      if (y : ℤ) ≤ 63 + 1 ∧ ci.biomeId ≠ 1 ∧ ci.biomeId ≠ 2 ∧ ci.biomeId ≠ 10 ∧ ci.biomeId ≠ 5 then SAND
      else if ci.biomeId = 1 ∧ (y : ℤ) > ci.h - 3 then SAND
      else ci.surface
    else if (y : ℤ) ≤ 63 then WATER
    else AIR
  if 0 < y ∧ (y : ℤ) ≤ ci.h ∧ blockID ≠ WATER ∧ blockID ≠ BEDROCK ∧ ci.biomeId ≠ 10 then
    if ci.h - (y : ℤ) > 5 then
      if o.noise2D (wx * 0.002 + 5000) (wz * 0.002 + 5000) > 0.2 then
        if o.noise3D (wx * 0.05) ((y : ℚ) * 0.05) (wz * 0.05) > 0.6 then AIR else blockID
      else blockID
    else blockID
  else blockID

/-- The buffer after the fill pass, as a function of the flat index
x + z*16 + y*256. -/
def baseData (o : GenOracle) (offset : ℚ) (cx cz : ℤ) (cols : ℕ → ColInfo) : VoxelData :=
  fun idx =>
    if idx < 65536 then
      fillCell o offset cx cz (idx % 16) (idx / 16 % 16) (cols (idx % 16 + idx / 16 % 16 * 16)) (idx / 256)
    else AIR

/-- The inclusive integer range [a, b] as a list. -/
def intRange (a b : ℤ) : List ℤ :=
  (List.range (b + 1 - a).toNat).map (fun i => a + i)

/-- ChunkManager.makeTree (Chunk.ts lines 278-288).  The bottom leaf layer
trims each corner with a fresh Math.random draw; k counts the draws made so
far.  The JavaScript condition A and B and (C or D) only evaluates the
draw D when A, B and not C hold. -/
def makeTree (o : GenOracle) (d : VoxelData) (k : ℕ) (x z : ℕ) (y : ℤ) (t l : ℕ) (h : ℕ) :
    VoxelData × ℕ :=
  if y + h + 2 ≥ 256 ∨ x < 2 ∨ x > 13 ∨ z < 2 ∨ z > 13 then (d, k)
  else
    let d := (List.range h).foldl (fun d i => bufWrite d (x + z * 16 + (y + i) * 256) t) d
    (intRange (y + h - 2) (y + h + 1)).foldl (fun dk ly =>
      let r : ℤ := if ly > y + h - 1 then 1 else 2
      (intRange (x - r) (x + r)).foldl (fun dk lx =>
        (intRange (z - r) (z + r)).foldl (fun dk lz =>
          let writeLeaf : VoxelData × ℕ → VoxelData × ℕ := fun dk =>
            let idx := lx + lz * 16 + ly * 256
            (if dk.1 idx.toNat = AIR ∧ 0 ≤ idx then bufWrite dk.1 idx l else dk.1, dk.2)
          if |lx - x| = r ∧ |lz - z| = r then
            if ly ≠ y + h - 2 then dk
            else if o.random dk.2 > 0.5 then (dk.1, dk.2 + 1)
            else writeLeaf (dk.1, dk.2 + 1)
          else writeLeaf dk) dk) dk) (d, k)

/-- ChunkManager.makeSpruceTree (Chunk.ts lines 289-300). -/
def makeSpruceTree (d : VoxelData) (x z : ℕ) (y : ℤ) : VoxelData :=
  if y + 8 ≥ 256 ∨ x < 3 ∨ x > 12 ∨ z < 3 ∨ z > 12 then d
  else
    let d := (List.range 6).foldl (fun d i => bufWrite d (x + z * 16 + (y + i) * 256) SPRUCE_LOG) d
    let d := bufWrite d (x + z * 16 + (y + 6) * 256) SPRUCE_LEAVES
    (intRange 2 5).foldl (fun d i =>
      let r : ℤ := if i % 2 = 0 then 2 else 1
      (intRange ((x : ℤ) - r) ((x : ℤ) + r)).foldl (fun d lx =>
        (intRange ((z : ℤ) - r) ((z : ℤ) + r)).foldl (fun d lz =>
          if |lx - (x : ℤ)| = r ∧ |lz - (z : ℤ)| = r then d
          else
            let idx := lx + lz * 16 + (y + i) * 256
            if d idx.toNat = AIR ∧ 0 ≤ idx then bufWrite d idx SPRUCE_LEAVES else d) d) d) d

/-- ChunkManager.makeAcaciaTree (Chunk.ts lines 301-308).  The canopy write
is unconditional. -/
def makeAcaciaTree (d : VoxelData) (x z : ℕ) (y : ℤ) : VoxelData :=
  if y + 6 ≥ 256 ∨ x < 3 ∨ x > 12 ∨ z < 3 ∨ z > 12 then d
  else
    let d := (List.range 4).foldl (fun d i => bufWrite d (x + z * 16 + (y + i) * 256) ACACIA_LOG) d
    (intRange ((x : ℤ) - 2) ((x : ℤ) + 2)).foldl (fun d lx =>
      (intRange ((z : ℤ) - 2) ((z : ℤ) + 2)).foldl (fun d lz =>
        if |lx - (x : ℤ)| = 2 ∧ |lz - (z : ℤ)| = 2 then d
        else bufWrite d (lx + lz * 16 + (y + 4) * 256) ACACIA_LEAVES) d) d

/-- The surface decoration pass of generateChunkData
(Chunk.ts lines 211-252). -/
def decorate (o : GenOracle) (cx cz : ℤ) (seed : ℚ) (cols : ℕ → ColInfo)
    (d0 : VoxelData) (k0 : ℕ) : VoxelData × ℕ :=
  (List.range 16).foldl (fun dk x =>
    (List.range 16).foldl (fun dk z =>
      let ci := cols (x + z * 16)
      let h := ci.h
      let ground := dk.1 (x + z * 16 + h.toNat * 256)
      if ground = AIR then dk
      else
        let bid := ci.biomeId
        let top := h + 1
        if top < 256 ∧ top > 63 then
          let idx : ℤ := x + z * 16 + top * 256
          let r := chunkRand o ((cx * 16 + x : ℤ) : ℚ) ((cz * 16 + z : ℤ) : ℚ) seed
          let isSand := ground = SAND ∨ ground = RED_SAND
          if bid = 1 ∧ r < 0.005 ∧ isSand then (bufWrite dk.1 idx CACTUS, dk.2)
          else if ¬ isSand then
            if bid = 3 then
              if r < 0.06 then makeTree o dk.1 dk.2 x z top JUNGLE_LOG JUNGLE_LEAVES 12
              else if r < 0.25 then (bufWrite dk.1 idx TALL_GRASS, dk.2)
              else dk
            else if bid = 2 then
              if r < 0.005 then (makeAcaciaTree dk.1 x z top, dk.2)
              else if r < 0.15 then (bufWrite dk.1 idx TALL_GRASS, dk.2)
              else dk
            else if bid = 6 then
              if r < 0.015 then makeTree o dk.1 dk.2 x z top BIRCH_LOG BIRCH_LEAVES 5
              else if r < 0.05 then (bufWrite dk.1 idx TALL_GRASS, dk.2)
              else dk
            else if bid = 4 then
              if r < 0.015 then makeTree o dk.1 dk.2 x z top WOOD LEAVES 5
              else if r < 0.08 then (bufWrite dk.1 idx TALL_GRASS, dk.2)
              else dk
            else if bid = 7 then
              if r < 0.04 then makeTree o dk.1 dk.2 x z top SPRUCE_LOG LEAVES 6
              else dk
            else if bid = 5 ∧ r < 0.005 then (makeSpruceTree dk.1 x z top, dk.2)
            else if bid = 0 ∧ r < 0.001 then makeTree o dk.1 dk.2 x z top WOOD LEAVES 5
            else dk
          else dk
        else dk) dk) (d0, k0)

/-- The Flat world buffer (Chunk.ts lines 69-76): bedrock at y = 0, dirt up
to y = 3, grass at y = 4, air above. -/
def flatData : VoxelData :=
  fun idx =>
    if idx < 65536 then
      let y := idx / 256
      if y = 0 then BEDROCK else if y < 4 then DIRT else if y = 4 then GRASS else AIR
    else AIR

/-- ChunkManager.applyModifications (Chunk.ts lines 258-276): replay every
overlay entry that falls inside this chunk.  Overlay keys are the canonical
coordinate strings produced by setBlock, modelled directly as coordinate
triples. -/
def applyModifications (cx cz : ℤ) (data : VoxelData)
    (modifiedBlocks : List ((ℤ × ℤ × ℤ) × ℕ)) : VoxelData :=
  let minX := cx * 16
  let maxX := (cx + 1) * 16
  let minZ := cz * 16
  let maxZ := (cz + 1) * 16
  modifiedBlocks.foldl (fun d e =>
    let gx := e.1.1
    let gy := e.1.2.1
    let gz := e.1.2.2
    if minX ≤ gx ∧ gx < maxX ∧ minZ ≤ gz ∧ gz < maxZ ∧ 0 ≤ gy ∧ gy < 256 then
      bufWrite d (jsWrapMod16 gx + jsWrapMod16 gz * 16 + gy * 256) e.2
    else d) data

/-- ChunkManager.generateChunkData (Chunk.ts lines 66-256).  offset is the
seedOffset field of the manager (seed * 10000 at construction); seed is the
argument the engine passes (the same world seed). -/
def generateChunkData (o : GenOracle) (offset : ℚ) (cx cz : ℤ) (seed : ℚ)
    (worldType : WorldType) (modifiedBlocks : List ((ℤ × ℤ × ℤ) × ℕ)) : VoxelData :=
  if worldType = WorldType.Flat then
    applyModifications cx cz flatData modifiedBlocks
  else
    let ck := genColumns o offset worldType cx cz
    let d0 := baseData o offset cx cz ck.1
    let dk := decorate o cx cz seed ck.1 d0 ck.2
    applyModifications cx cz dk.1 modifiedBlocks

/-! ## Mesher (src/game/Chunk.ts, ChunkManager.generateChunkMesh)

The geometric output is modelled by the data the claims speak about: the
number of emitted faces (one addFace call or one cross quad = one face) and
the per-vertex ambient-occlusion weights.  Materials, uv and position
buffers carry no extra information for those claims. -/

/-- isTransparent (Chunk.ts line 321): AIR, or a table entry whose
transparent field is truthy. -/
def isTransparent (id : ℕ) : Bool :=
  decide (id = AIR) || (BLOCK_PROPS id).elim false (fun p => p.transparent.getD false)

/-- isWater (Chunk.ts line 324). -/
def isWater (id : ℕ) : Bool := decide (id = WATER) || decide (id = FLOWING_WATER)

/-- The neighbor culling test check (Chunk.ts lines 436-444): resolve the
neighbor inside this buffer when its local coordinates are in range,
otherwise through the engine getBlock callback (modelled by look, already
bound to this chunk position through world coordinates). -/
def meshCheck (chunkData : VoxelData) (look : ℤ → ℤ → ℤ → ℕ) (cx cz : ℤ)
    (bID : ℕ) (x z y : ℕ) (dx dy dz : ℤ) : Bool :=
  let nx : ℤ := x + dx
  let ny : ℤ := y + dy
  let nz : ℤ := z + dz
  if 0 ≤ nx ∧ nx < 16 ∧ 0 ≤ nz ∧ nz < 16 ∧ 0 ≤ ny ∧ ny < 256 then
    let nb := chunkData (nx + nz * 16 + ny * 256).toNat
    isTransparent nb && (!(isWater bID) || !(isWater nb))
  else
    let gb := look (cx * 16 + nx) ny (cz * 16 + nz)
    isTransparent gb && (!(isWater bID) || !(isWater gb))

/-- Faces emitted for one voxel of block type bID at (x, z, y)
(Chunk.ts lines 453-478): two cross quads for cross-shaped blocks, six
inset faces for torches, otherwise one face per transparent neighbor. -/
def cellFaceCount (chunkData : VoxelData) (look : ℤ → ℤ → ℤ → ℕ) (cx cz : ℤ)
    (bID : ℕ) (x z y : ℕ) : ℕ :=
  let props := (BLOCK_PROPS bID).getD {}
  if props.cross.getD false then 2
  else if bID = TORCH then 6
  else
    (if meshCheck chunkData look cx cz bID x z y 1 0 0 then 1 else 0) +
    (if meshCheck chunkData look cx cz bID x z y (-1) 0 0 then 1 else 0) +
    (if meshCheck chunkData look cx cz bID x z y 0 1 0 then 1 else 0) +
    (if meshCheck chunkData look cx cz bID x z y 0 (-1) 0 then 1 else 0) +
    (if meshCheck chunkData look cx cz bID x z y 0 0 1 then 1 else 0) +
    (if meshCheck chunkData look cx cz bID x z y 0 0 (-1) then 1 else 0)

/-- The total number of faces emitted by generateChunkMesh
(Chunk.ts lines 428-480).  The source iterates the keys of BLOCK_PROPS,
which are exactly 1..47, skipping AIR explicitly; cells are scanned x, z, y. -/
def generateChunkMeshFaceCount (chunkData : VoxelData) (look : ℤ → ℤ → ℤ → ℕ)
    (cx cz : ℤ) : ℕ :=
  ∑ bID ∈ Finset.range 48,
    if bID = AIR then 0
    else ∑ x ∈ Finset.range 16, ∑ z ∈ Finset.range 16, ∑ y ∈ Finset.range 256,
      if chunkData (x + z * 16 + y * 256) = bID then
        cellFaceCount chunkData look cx cz bID x z y
      else 0

/-- A vertex of a face, in block-local coordinates. -/
def V3 : Type := ℚ × ℚ × ℚ

/-- The epsilon comparison of calcVertAO (Chunk.ts line 366): coordinates
match within eps = 0.1. -/
def vClose (v w : V3) : Bool :=
  decide (|v.1 - w.1| < 0.1) && decide (|v.2.1 - w.2.1| < 0.1) && decide (|v.2.2 - w.2.2| < 0.1)

/-- The four corner vertices of a face built by addFace
(Chunk.ts lines 338-356). -/
def faceVerts (dx dy dz : ℤ) (customScale height : ℚ) : V3 × V3 × V3 × V3 :=
  let s := customScale
  let off := (1 - s) / 2
  let mn := off
  let xMax := off + s
  let zMax := off + s
  let yMax := height
  if dx ≠ 0 then
    let xi := if dx > 0 then xMax else mn
    ((xi, mn, zMax), (xi, mn, mn), (xi, yMax, mn), (xi, yMax, zMax))
  else if dy ≠ 0 then
    let yi := if dy > 0 then yMax else mn
    ((mn, yi, zMax), (xMax, yi, zMax), (xMax, yi, mn), (mn, yi, mn))
  else
    let zi := if dz > 0 then zMax else mn
    ((mn, mn, zi), (xMax, mn, zi), (xMax, yMax, zi), (mn, yMax, zi))

/-- The (sx1, sy1, sz1, sx2, sy2, sz2) neighbor offsets computed by
calcVertAO for a vertex (Chunk.ts lines 363-385): the mutable locals start
at zero and each eps-match assigns them in turn. -/
def aoOffsets (dx dy dz : ℤ) (v0 v1 v2 v3 vtx : V3) : ℤ × ℤ × ℤ × ℤ × ℤ × ℤ :=
  if dx ≠ 0 then
    let p : ℤ × ℤ := (0, 0)
    let p := if vClose vtx v0 then (-1, 1) else p
    let p := if vClose vtx v1 then (-1, -1) else p
    let p := if vClose vtx v2 then (1, -1) else p
    let p := if vClose vtx v3 then (1, 1) else p
    (dx, p.1, 0, dx, 0, p.2)
  else if dy ≠ 0 then
    let p : ℤ × ℤ := (0, 0)
    let p := if vClose vtx v0 then (-1, 1) else p
    let p := if vClose vtx v1 then (1, 1) else p
    let p := if vClose vtx v2 then (1, -1) else p
    let p := if vClose vtx v3 then (-1, -1) else p
    (p.1, dy, 0, 0, dy, p.2)
  else
    let p : ℤ × ℤ := (0, 0)
    let p := if vClose vtx v0 then (-1, -1) else p
    let p := if vClose vtx v1 then (-1, -1) else p
    let p := if vClose vtx v2 then (1, 1) else p
    let p := if vClose vtx v3 then (-1, 1) else p
    (p.1, 0, dz, 0, p.2, dz)

/-- The corner adjustment dx||0+dy||0+dz of calcVertAO (Chunk.ts line 389).
By JavaScript precedence this parses as dx || (0 + dy) || (0 + dz): the
first nonzero component of the face normal. -/
def normalComp (dx dy dz : ℤ) : ℤ :=
  if dx ≠ 0 then dx else if dy ≠ 0 then dy else dz

/-- calcVertAO (Chunk.ts lines 362-394): the ambient-occlusion weight of
one vertex, from the two edge neighbors and the diagonal neighbor given by
the occupancy predicate occ (the getAO closure). -/
def calcVertAO (occ : ℤ → ℤ → ℤ → Bool) (x y z : ℤ) (dx dy dz : ℤ)
    (v0 v1 v2 v3 vtx : V3) : ℚ :=
  let s6 := aoOffsets dx dy dz v0 v1 v2 v3 vtx
  let side1 := occ (x + s6.1) (y + s6.2.1) (z + s6.2.2.1)
  let side2 := occ (x + s6.2.2.2.1) (y + s6.2.2.2.2.1) (z + s6.2.2.2.2.2)
  let n := normalComp dx dy dz
  let corner := occ (x + s6.1 + s6.2.2.2.1 - n) (y + s6.2.1 + s6.2.2.2.2.1 - n)
    (z + s6.2.2.1 + s6.2.2.2.2.2 - n)
  if side1 && side2 then 0
  else
    1 - ((if side1 then (1 : ℚ) else 0) + (if side2 then (1 : ℚ) else 0) +
      (if corner then (1 : ℚ) else 0)) * 0.2

/-- The getAO closure (Chunk.ts lines 326-329): a neighbor occupies iff the
block the engine reports there is not transparent. -/
def getAO (look : ℤ → ℤ → ℤ → ℕ) (cx cz : ℤ) (x y z : ℤ) : Bool :=
  !(isTransparent (look (cx * 16 + x) y (cz * 16 + z)))

/-- The four per-vertex color weights (ao0, ao1, ao2, ao3) addFace emits
(Chunk.ts lines 360-399 and 407-424): computed by calcVertAO only when
smooth lighting is on, for a full-size non-fluid face; in every other case
the emitted color weight of each vertex is 1. -/
def faceAO (smoothLighting : Bool) (bID : ℕ) (look : ℤ → ℤ → ℤ → ℕ) (cx cz : ℤ)
    (x y z : ℤ) (dx dy dz : ℤ) (customScale height : ℚ) : ℚ × ℚ × ℚ × ℚ :=
  let v := faceVerts dx dy dz customScale height
  if smoothLighting && decide (customScale = 1.0) && !(isWater bID) then
    (calcVertAO (getAO look cx cz) x y z dx dy dz v.1 v.2.1 v.2.2.1 v.2.2.2 v.1,
     calcVertAO (getAO look cx cz) x y z dx dy dz v.1 v.2.1 v.2.2.1 v.2.2.2 v.2.1,
     calcVertAO (getAO look cx cz) x y z dx dy dz v.1 v.2.1 v.2.2.1 v.2.2.2 v.2.2.1,
     calcVertAO (getAO look cx cz) x y z dx dy dz v.1 v.2.1 v.2.2.1 v.2.2.2 v.2.2.2)
  else (1, 1, 1, 1)

/-! ## World engine (src/game/Engine.ts, GameEngine)

The engine state is restricted to the data the claims are about: the chunk
store (coordinate to voxel buffer; meshes are derived artifacts built from
this data and carry no state of their own), the modification overlay, the
fluid queue and its membership set, the player position and settings, and
the mining state.  JavaScript Map keys "cx,cz" and "x,y,z" are canonical
integer strings, modelled directly as tuples. -/

inductive GameMode where
  | Survival
  | Creative
deriving DecidableEq

/-- An inventory stack (src/types.ts, interface ItemStack). -/
structure ItemStack where
  id : ℕ
  count : ℤ
deriving DecidableEq

structure WorldState where
  chunks : ℤ × ℤ → Option VoxelData
  modifiedBlocks : List ((ℤ × ℤ × ℤ) × ℕ)
  fluidQueue : List (ℤ × ℤ × ℤ)
  fluidQueueSet : Finset (ℤ × ℤ × ℤ)
  playerX : ℚ
  playerZ : ℚ
  renderDistance : ℤ
  gameMode : GameMode
  worldType : WorldType
  seed : ℚ
  inventory : ℕ → Option ItemStack
  selectedSlot : ℕ
  isMining : Bool
  miningBlock : Option (ℤ × ℤ × ℤ)
  miningProgress : ℚ
  smoothLighting : Bool
  droppedItems : List ℕ

/-- JavaScript Map.set: update the value in place when the key exists,
append otherwise. -/
def mapSet (m : List ((ℤ × ℤ × ℤ) × ℕ)) (key : ℤ × ℤ × ℤ) (v : ℕ) :
    List ((ℤ × ℤ × ℤ) × ℕ) :=
  if m.any (fun e => e.1 = key) then
    m.map (fun e => if e.1 = key then (key, v) else e)
  else m ++ [(key, v)]

/-- GameEngine.getBlock (Engine.ts lines 747-757). -/
def getBlock (w : WorldState) (x y z : ℤ) : ℕ :=
  let cx := x.fdiv 16
  let cz := z.fdiv 16
  match w.chunks (cx, cz) with
  | none => AIR
  | some data =>
    if y < 0 ∨ 256 ≤ y then AIR
    else data (jsWrapMod16 x + jsWrapMod16 z * 16 + y * 256).toNat

/-- GameEngine.setBlock (Engine.ts lines 759-774).  The write into the
Uint8Array goes through bufWrite (no vertical bound check in the source:
an out-of-range index is silently dropped by the typed array), the overlay
is upserted, and the re-meshing of the owning and boundary-adjacent chunks
touches no state modelled here. -/
def setBlock (w : WorldState) (x y z : ℤ) (id : ℕ) : WorldState :=
  let cx := x.fdiv 16
  let cz := z.fdiv 16
  match w.chunks (cx, cz) with
  | none => w
  | some data =>
    let data2 := bufWrite data (jsWrapMod16 x + jsWrapMod16 z * 16 + y * 256) id
    { w with
      chunks := fun c => if c = (cx, cz) then some data2 else w.chunks c,
      modifiedBlocks := mapSet w.modifiedBlocks (x, y, z) id }

/-- GameEngine.scheduleFluidUpdate (Engine.ts lines 833-839). -/
def scheduleFluidUpdate (w : WorldState) (x y z : ℤ) : WorldState :=
  if (x, y, z) ∈ w.fluidQueueSet then w
  else
    { w with
      fluidQueueSet := insert (x, y, z) w.fluidQueueSet,
      fluidQueue := w.fluidQueue ++ [(x, y, z)] }

/-- The downward-flow step of a processFluids iteration
(Engine.ts lines 857-868): a water cell converts the cell below unless it
is water, cross-shaped, a torch or bedrock (the inner fluid-undefined test
is true for every block without a fluid field, solids included). -/
def fluidDown (w0 : WorldState) (x y z : ℤ) : WorldState :=
  if 0 < y then
    let bBelow := getBlock w0 x (y - 1) z
    if bBelow = AIR ∨ (bBelow ≠ WATER ∧ bBelow ≠ FLOWING_WATER ∧
        propCross bBelow = false ∧ bBelow ≠ TORCH ∧ bBelow ≠ BEDROCK) then
      if bBelow = AIR ∨ propFluidUndefined bBelow = true then
        scheduleFluidUpdate (setBlock w0 x (y - 1) z FLOWING_WATER) x (y - 1) z
      else w0
    else w0
  else w0

/-- One lateral-spread neighbor of a source water cell
(Engine.ts lines 881-889). -/
def fluidSpreadStep (x y z : ℤ) (w : WorldState) (n : ℤ × ℤ) : WorldState :=
  let nx := x + n.1
  let nz := z + n.2
  let nb := getBlock w nx y nz
  if nb = AIR ∨ propCross nb = true then
    scheduleFluidUpdate (setBlock w nx y nz FLOWING_WATER) nx y nz
  else w

/-- The body of one processFluids iteration after the dequeue
(Engine.ts lines 854-892): downward flow, then lateral spread for source
water sitting on solid ground (the below cell is re-read after the
downward write, as in the source). -/
def fluidCell (w0 : WorldState) (x y z : ℤ) : WorldState :=
  let block := getBlock w0 x y z
  if block = WATER ∨ block = FLOWING_WATER then
    let w1 := fluidDown w0 x y z
    if block = WATER then
      let bBelow := getBlock w1 x (y - 1) z
      let isSolidBelow := bBelow ≠ AIR ∧ bBelow ≠ WATER ∧ bBelow ≠ FLOWING_WATER ∧
        propFluid bBelow = false
      if isSolidBelow then
        [((1 : ℤ), (0 : ℤ)), (-1, 0), (0, 1), (0, -1)].foldl (fluidSpreadStep x y z) w1
      else w1
    else w1
  else w0

/-- The drain loop of processFluids (Engine.ts lines 848-852): dequeue the
head, drop it from the membership set, process it; the fuel is the batch
budget. -/
def processFluidsLoop : ℕ → WorldState → WorldState
  | 0, w => w
  | Nat.succ n, w =>
    match w.fluidQueue with
    | [] => w
    | c :: rest =>
      let w1 := { w with fluidQueue := rest, fluidQueueSet := w.fluidQueueSet.erase c }
      processFluidsLoop n (fluidCell w1 c.1 c.2.1 c.2.2)

/-- GameEngine.processFluids (Engine.ts lines 841-894): early return on an
empty queue, otherwise drain up to the batch size of 500. -/
def processFluids (w : WorldState) : WorldState :=
  if w.fluidQueue = [] then w else processFluidsLoop 500 w

/-- The mining speed multiplier of updateMining (Engine.ts lines 607-616):
1.0 with empty hand; with a held item, the held descriptor efficiency
(JavaScript || 1.0, so 1.0 when absent or zero) exactly when the block
names a required tool and the held item tool category equals it. -/
def miningSpeed (blockType : ℕ) (heldItem : Option ItemStack) : ℚ :=
  match heldItem with
  | none => 1.0
  | some item =>
    let blockProps := (BLOCK_PROPS blockType).getD {}
    let toolProps := (BLOCK_PROPS item.id).getD {}
    if blockProps.toolType.isSome ∧ toolProps.toolType = blockProps.toolType then
      match toolProps.efficiency with
      | some e => if e = 0 then 1.0 else e
      | none => 1.0
    else 1.0

/-- GameEngine.breakBlock (Engine.ts lines 636-663): clear the cell,
schedule the five fluid neighbors, and in survival drop an item (with the
stone / coal ore / grass substitutions, liquids dropping nothing). -/
def breakBlock (w : WorldState) (x y z : ℤ) : WorldState :=
  let type := getBlock w x y z
  let w := setBlock w x y z AIR
  let w := scheduleFluidUpdate w x (y + 1) z
  let w := scheduleFluidUpdate w (x + 1) y z
  let w := scheduleFluidUpdate w (x - 1) y z
  let w := scheduleFluidUpdate w x y (z + 1)
  let w := scheduleFluidUpdate w x y (z - 1)
  if w.gameMode = GameMode.Survival ∧ type ≠ AIR then
    let dropType := type
    let dropType := if type = STONE then COBBLESTONE else dropType
    let dropType := if type = COAL_ORE then COAL else dropType
    let dropType := if type = GRASS then DIRT else dropType
    if type ≠ WATER ∧ type ≠ FLOWING_WATER then
      { w with droppedItems := w.droppedItems ++ [dropType] }
    else w
  else w

/-- GameEngine.startMining (Engine.ts lines 537-566).  The raycast result
is abstracted as the block coordinate it resolves to (none when nothing is
hit); the breaking-overlay mesh is display state and not modelled. -/
def startMining (w : WorldState) (hit : Option (ℤ × ℤ × ℤ)) : WorldState :=
  match hit with
  | none => w
  | some t =>
    let b := getBlock w t.1 t.2.1 t.2.2
    if b ≠ AIR ∧ b ≠ BEDROCK then
      let props := (BLOCK_PROPS b).getD {}
      if props.hardness = some (-1) ∧ w.gameMode ≠ GameMode.Creative then w
      else
        let w1 := { w with isMining := true, miningBlock := some t, miningProgress := 0 }
        if w1.gameMode = GameMode.Creative then
          let w2 := breakBlock w1 t.1 t.2.1 t.2.2
          { w2 with isMining := false }
        else w1
    else w

/-- The part of GameEngine.updateMining after the retarget check
(Engine.ts lines 590-633): the air check, the unbreakable guard, the speed
computation, the progress accumulation and the break when progress reaches
the hardness. -/
def updateMiningAt (w : WorldState) (dt : ℚ) (t : ℤ × ℤ × ℤ)
    (nextHit : Option (ℤ × ℤ × ℤ)) : WorldState :=
  let blockType := getBlock w t.1 t.2.1 t.2.2
  if blockType = AIR then { w with isMining := false }
  else
    let blockProps := (BLOCK_PROPS blockType).getD {}
    let hardness := blockProps.hardness.getD 1
    if hardness < 0 ∧ w.gameMode ≠ GameMode.Creative then { w with isMining := false }
    else
      let speed := miningSpeed blockType (w.inventory w.selectedSlot)
      let w := { w with miningProgress := w.miningProgress + dt * speed }
      if w.miningProgress ≥ hardness then
        let w := breakBlock w t.1 t.2.1 t.2.2
        startMining { w with miningProgress := 0 } nextHit
      else w

/-- GameEngine.updateMining (Engine.ts lines 568-634).  hit is the raycast
result of this frame; nextHit feeds the chained startMining call made when
a block finishes breaking. -/
def updateMining (w : WorldState) (dt : ℚ) (hit nextHit : Option (ℤ × ℤ × ℤ)) : WorldState :=
  if w.isMining = false ∨ w.miningBlock = none then w
  else
    match hit with
    | none => { w with isMining := false }
    | some t =>
      let w :=
        if w.miningBlock ≠ some t then { w with miningBlock := some t, miningProgress := 0 }
        else w
      updateMiningAt w dt t nextHit

/-- The chunk coordinate of the viewpoint (Engine.ts lines 796-797). -/
def viewChunkX (w : WorldState) : ℤ := ⌊w.playerX / 16⌋

def viewChunkZ (w : WorldState) : ℤ := ⌊w.playerZ / 16⌋

/-- GameEngine.updateWorldChunks (Engine.ts lines 795-829): generate every
missing chunk in the square of side 2*renderDistance+1 around the
viewpoint, then evict every chunk farther than renderDistance+2 on either
axis.  The per-chunk loop only inserts at its own key, so the pass is the
pointwise map below; mesh construction and disposal touch no modelled
state. -/
def updateWorldChunks (o : GenOracle) (w : WorldState) : WorldState :=
  let pcx := viewChunkX w
  let pcz := viewChunkZ w
  let dist := w.renderDistance
  let gen : (ℤ × ℤ → Option VoxelData) := fun c =>
    match w.chunks c with
    | some d => some d
    | none =>
      if pcx - dist ≤ c.1 ∧ c.1 ≤ pcx + dist ∧ pcz - dist ≤ c.2 ∧ c.2 ≤ pcz + dist then
        some (generateChunkData o (w.seed * 10000) c.1 c.2 w.seed w.worldType w.modifiedBlocks)
      else none
  { w with chunks := fun c =>
      if |c.1 - pcx| > dist + 2 ∨ |c.2 - pcz| > dist + 2 then none else gen c }

/-- The fluid queue invariant the source maintains (Engine.ts lines
833-852): the queue has at most one pending entry per coordinate and the
membership set holds exactly the queued coordinates. -/
def QueueInv (w : WorldState) : Prop :=
  w.fluidQueue.Nodup ∧ ∀ c, c ∈ w.fluidQueueSet ↔ c ∈ w.fluidQueue

/-! ## Concrete sample data used by the witnesses and counterexamples -/

/-- A concrete noise assignment: the sampler regions hit by chunk (0, 0)
with seed 0 return fixed values so that column (0, 0) is temperate land
with temperature 0.48 and moisture -0.35 (right at the desert boundary
that the Math.random biome jitter crosses) while every other column is
deep ocean. -/
def cexNoise2D (a b : ℚ) : ℚ :=
  if 100 ≤ a ∧ a < 500 then 0.48
  else if 500 ≤ a ∧ a < 1000 then -0.35
  else if 1000 ≤ a then 0
  else if a = 0 ∧ b = 0 then 0.1
  else -0.5

/-- A Math.sin value that makes the placement hash chunkRand evaluate to
exactly 0.5 (so no decoration fires on any column). -/
def cexSinConst : ℚ := 5000 / 437585453

/-- First run: Math.random always returns 0.9 (biome jitter +0.04). -/
def cexOracle1 : GenOracle :=
  { noise2D := cexNoise2D, noise3D := fun _ _ _ => 0,
    jsSin := fun _ => cexSinConst, random := fun _ => 0.9 }

/-- Second run: identical noise, Math.sin and arguments, but Math.random
always returns 0.5 (biome jitter 0). -/
def cexOracle2 : GenOracle :=
  { noise2D := cexNoise2D, noise3D := fun _ _ _ => 0,
    jsSin := fun _ => cexSinConst, random := fun _ => 0.5 }

/-- A neutral world state used as the base of the concrete samples. -/
def baseWorld : WorldState :=
  { chunks := fun _ => none,
    modifiedBlocks := [],
    fluidQueue := [],
    fluidQueueSet := ∅,
    playerX := 0,
    playerZ := 0,
    renderDistance := 2,
    gameMode := GameMode.Survival,
    worldType := WorldType.Default,
    seed := 0,
    inventory := fun _ => none,
    selectedSlot := 0,
    isMining := false,
    miningBlock := none,
    miningProgress := 0,
    smoothLighting := true,
    droppedItems := [] }

/-- One resident all-stone chunk at (0, 0). -/
def stoneWorld : WorldState :=
  { baseWorld with chunks := fun c => if c = (0, 0) then some (fun _ => STONE) else none }

/-- A buffer with a source water cell at local (0, 10, 0) directly above a
stone cell at local (0, 9, 0); indices 2560 = 10*256 and 2304 = 9*256. -/
def fluidCexData : VoxelData :=
  fun idx => if idx = 2560 then WATER else if idx = 2304 then STONE else AIR

/-- A world holding that chunk, with the water cell pending in the fluid
queue. -/
def fluidCexWorld : WorldState :=
  { baseWorld with
    chunks := fun c => if c = (0, 0) then some fluidCexData else none,
    fluidQueue := [(0, 10, 0)],
    fluidQueueSet := {(0, 10, 0)} }

/-- One resident all-water chunk at (0, 0), for the unbreakable-block
witness (water has hardness -1). -/
def waterWorld : WorldState :=
  { baseWorld with chunks := fun c => if c = (0, 0) then some (fun _ => WATER) else none }

/-! ## Helper lemmas -/

theorem jsWrapMod16_eq_emod (a : ℤ) : jsWrapMod16 a = a % 16 := by
  have hdef : a.tmod 16 = a - 16 * a.tdiv 16 := by
    have h := Int.tmod_add_tdiv a 16
    omega
  have hlt : a.tmod 16 < 16 := Int.tmod_lt_of_pos a (by norm_num)
  have hgt : -16 < a.tmod 16 := by
    rcases a with m | m
    · have : (0 : ℤ) ≤ (Int.ofNat m).tmod 16 := Int.tmod_nonneg _ (by exact Int.ofNat_nonneg m)
      omega
    · show -16 < (Int.negSucc m).tmod 16
      simp only [Int.tmod, Int.ofNat_eq_coe]
      omega
  have h2 : (a.tmod 16 + 16).tmod 16 = (a.tmod 16 + 16) % 16 :=
    Int.tmod_eq_emod (by omega) (by norm_num)
  unfold jsWrapMod16
  rw [h2]
  omega

theorem jsWrapMod16_bounds (a : ℤ) : 0 ≤ jsWrapMod16 a ∧ jsWrapMod16 a < 16 := by
  rw [jsWrapMod16_eq_emod]; omega

theorem lookup_mem {l : List (ℕ × BlockProp)} {a : ℕ} {p : BlockProp}
    (h : l.lookup a = some p) : (a, p) ∈ l := by
  induction l with
  | nil => simp [List.lookup] at h
  | cons e tl ih =>
    rcases e with ⟨k, v⟩
    by_cases hk : k = a
    · subst hk
      simp [List.lookup] at h
      subst h
      exact List.mem_cons_self _ _
    · have hb : (a == k) = false := beq_eq_false_iff_ne.mpr (fun hak => hk hak.symm)
      rw [List.lookup, hb] at h
      exact List.mem_cons_of_mem _ (ih h)

/-- Every table entry whose cross field is truthy is also transparent
(only tall grass is cross-shaped). -/
theorem cross_imp_transparent (b : ℕ)
    (hc : ((BLOCK_PROPS b).getD {}).cross.getD false = true) : isTransparent b = true := by
  rcases hb : BLOCK_PROPS b with _ | p
  · rw [hb] at hc
    simp [Option.getD] at hc
  · have hmem : (b, p) ∈ propList := lookup_mem hb
    have hall : ∀ e ∈ propList, e.2.cross.getD false = true → e.2.transparent.getD false = true := by
      with_unfolding_all decide
    have hpc : p.cross.getD false = true := by rw [hb] at hc; simpa using hc
    have ht := hall (b, p) hmem hpc
    simp [isTransparent, hb, ht]

/-- Water block codes are transparent in the table. -/
theorem water_imp_transparent (b : ℕ) (h : isWater b = true) : isTransparent b = true := by
  have hb : b = 12 ∨ b = 47 := by
    simpa [isWater, WATER, FLOWING_WATER] using h
  rcases hb with hb | hb <;> subst hb <;> with_unfolding_all decide

/-- The torch code is transparent in the table. -/
theorem torch_transparent : isTransparent TORCH = true := by
  with_unfolding_all decide

/-- Every table entry with negative hardness has hardness exactly -1. -/
theorem table_hardness_neg :
    ∀ e ∈ propList, e.2.hardness.getD 0 < 0 → e.2.hardness = some (-1) := by
  with_unfolding_all decide

/-- A block whose descriptor reports negative hardness reports exactly -1. -/
theorem hardness_neg_eq_neg_one (b : ℕ) (q : ℚ)
    (hq : ((BLOCK_PROPS b).getD {}).hardness = some q) (hneg : q < 0) : q = -1 := by
  rcases hb : BLOCK_PROPS b with _ | p
  · rw [hb] at hq
    simp [Option.getD] at hq
  · rw [hb] at hq
    simp only [Option.getD] at hq
    have hmem : (b, p) ∈ propList := lookup_mem hb
    have := table_hardness_neg (b, p) hmem (by rw [hq]; simpa using hneg)
    rw [hq] at this
    injection this

/-! ## Claim theorems -/

set_option maxRecDepth 20000 in
/-- Claim C1: the claim states that two calls of generateChunkData with
identical chunk coordinate, seed, world mode and overlay return
bit-identical buffers.  The code draws Math.random inside the biome
decision (Chunk.ts line 161) and inside makeTree, so the output depends on
the random stream: with identical noise samplers, Math.sin, chunk (0, 0),
seed 0, Default mode and the empty overlay, the biome jitter +0.04 versus 0
flips the column (0, 0) biome between desert and plains, and the surface
cell at local (0, 0, 74) (index 18944) comes out SAND in one run and GRASS
in the other.  This contradicts the determinism the specification requires
(the persisted seed plus overlay could not reconstruct the same world), so
the claim is recorded as a code bug, witnessed here by evaluating the two
runs. -/
theorem C1_generation_not_deterministic :
    cexOracle1.noise2D = cexOracle2.noise2D ∧
    cexOracle1.noise3D = cexOracle2.noise3D ∧
    cexOracle1.jsSin = cexOracle2.jsSin ∧
    generateChunkData cexOracle1 0 0 0 0 WorldType.Default [] 18944 = SAND ∧
    generateChunkData cexOracle2 0 0 0 0 WorldType.Default [] 18944 = GRASS ∧
    SAND ≠ GRASS := by
  refine ⟨rfl, rfl, rfl, ?_, ?_, by with_unfolding_all decide⟩
  · with_unfolding_all decide
  · with_unfolding_all decide

/-- Claim C2: the claim states that the fluid simulation never overwrites
a solid (non-air, non-fluid, non-cross) cell with water.  In processFluids
the downward-flow guard (Engine.ts lines 860-866) lets any block that is
not water, cross-shaped, a torch or bedrock through, and the inner test
BLOCK_PROPS[b]?.fluid === undefined is true for every solid block, so a
water cell converts the solid stone cell directly below it into flowing
water: starting from a chunk with source water at (0, 10, 0) over stone at
(0, 9, 0) and that coordinate queued, one processFluids call leaves
flowing water where the stone was.  The code contradicts both the claim
and its own comment (replace air/plants: cross plants are in fact not
replaced, solids are), so the claim is recorded as a code bug. -/
theorem C2_fluid_overwrites_solid :
    getBlock fluidCexWorld 0 9 0 = STONE ∧
    propFluid STONE = false ∧
    propCross STONE = false ∧
    STONE ≠ AIR ∧
    getBlock (processFluids fluidCexWorld) 0 9 0 = FLOWING_WATER := by
  refine ⟨?_, ?_, ?_, ?_, ?_⟩ <;> with_unfolding_all decide

/-- Claim C4 counterexample: the claim states that setBlock at a
vertically out-of-range coordinate changes neither any voxel buffer nor
the overlay.  setBlock (Engine.ts lines 759-774) has no vertical bound
check: the typed-array write is silently dropped, but the overlay upsert
still runs, so setBlock at y = 256 on a resident chunk inserts the entry
into the modification overlay. -/
theorem C4_counterexample :
    stoneWorld.modifiedBlocks = [] ∧
    (setBlock stoneWorld 0 256 0 DIRT).modifiedBlocks = [((0, 256, 0), DIRT)] := by
  constructor
  · rfl
  · with_unfolding_all decide

/-- Claim C4 as amended: for y < 0 or y ≥ 256, getBlock returns AIR and
setBlock leaves every resident voxel buffer unchanged, but it still
upserts the modification overlay whenever the owning chunk is resident
(the claim said the overlay is also untouched; the counterexample above
forces this amendment). -/
theorem C4_vertical_bound_amended :
    ∀ (w : WorldState) (x y z : ℤ) (id : ℕ), (y < 0 ∨ 256 ≤ y) →
      getBlock w x y z = AIR ∧
      (setBlock w x y z id).chunks = w.chunks ∧
      (setBlock w x y z id).modifiedBlocks =
        (if (w.chunks (x.fdiv 16, z.fdiv 16)).isSome then
          mapSet w.modifiedBlocks (x, y, z) id
        else w.modifiedBlocks) := by
  intro w x y z id hy
  have hidx : jsWrapMod16 x + jsWrapMod16 z * 16 + y * 256 < 0 ∨
      65536 ≤ jsWrapMod16 x + jsWrapMod16 z * 16 + y * 256 := by
    have hx := jsWrapMod16_bounds x
    have hz := jsWrapMod16_bounds z
    omega
  refine ⟨?_, ?_, ?_⟩
  · rcases hch : w.chunks (x.fdiv 16, z.fdiv 16) with _ | data
    · simp only [getBlock, hch]
    · simp only [getBlock, hch]
      rw [if_pos hy]
  · rcases hch : w.chunks (x.fdiv 16, z.fdiv 16) with _ | data
    · simp only [setBlock, hch]
    · simp only [setBlock, hch]
      funext c
      by_cases hc : c = (x.fdiv 16, z.fdiv 16)
      · rw [if_pos hc, hc, hch]
        congr 1
        funext j
        unfold bufWrite
        rw [if_neg]
        rintro ⟨-, h0, h1⟩
        omega
      · rw [if_neg hc]
  · rcases hch : w.chunks (x.fdiv 16, z.fdiv 16) with _ | data
    · simp [setBlock, hch]
    · simp [setBlock, hch]

/-- Claim C4 amended, witness: the concrete instance at (0, 256, 0) on the
stone world. -/
theorem C4_vertical_bound_amended_witness :
    getBlock stoneWorld 0 256 0 = AIR ∧
    (setBlock stoneWorld 0 256 0 DIRT).chunks = stoneWorld.chunks ∧
    (setBlock stoneWorld 0 256 0 DIRT).modifiedBlocks =
      (if (stoneWorld.chunks ((0 : ℤ).fdiv 16, (0 : ℤ).fdiv 16)).isSome then
        mapSet stoneWorld.modifiedBlocks (0, 256, 0) DIRT
      else stoneWorld.modifiedBlocks) :=
  C4_vertical_bound_amended stoneWorld 0 256 0 DIRT (Or.inr (by norm_num))

/-- The ambient-occlusion combination of calcVertAO over the three
occupancy bits always lands in {1, 0.8, 0.6, 0}. -/
theorem aoValue_cases (s1 s2 co : Bool) :
    (if s1 && s2 then (0 : ℚ)
     else 1 - ((if s1 then (1 : ℚ) else 0) + (if s2 then (1 : ℚ) else 0) +
       (if co then (1 : ℚ) else 0)) * 0.2) ∈ ({1, 0.8, 0.6, 0} : Finset ℚ) := by
  cases s1 <;> cases s2 <;> cases co <;> with_unfolding_all decide

/-- Claim C6 counterexample: the claim states that every per-vertex
ambient-occlusion weight lies in {1.0, 0.8, 0.6} and that two solid edge
neighbors force the minimum of that set (0.6).  calcVertAO
(Chunk.ts line 391) returns 0 when both edge neighbors are solid, so on a
full-size upward face of a stone cell with every neighbor solid all four
vertex weights are 0, which is outside the claimed set. -/
theorem C6_counterexample :
    faceAO true STONE (fun _ _ _ => STONE) 0 0 5 5 5 0 1 0 1 1 = (0, 0, 0, 0) ∧
    (0 : ℚ) ∉ ({1, 0.8, 0.6} : Finset ℚ) ∧
    (0 : ℚ) ≠ 0.6 := by
  refine ⟨?_, ?_, ?_⟩ <;> with_unfolding_all decide

/-- Claim C6 as amended: with smooth lighting enabled every vertex weight
emitted for a full-size non-fluid face lies in {1.0, 0.8, 0.6, 0.0}; when
both edge-adjacent neighbors of the vertex are solid the weight is 0.0
regardless of the diagonal corner; with smooth lighting disabled every
vertex weight is exactly 1.0. -/
theorem C6_ao_amended :
    ∀ (occ : ℤ → ℤ → ℤ → Bool) (x y z dx dy dz : ℤ) (v0 v1 v2 v3 vtx : V3),
      (calcVertAO occ x y z dx dy dz v0 v1 v2 v3 vtx ∈ ({1, 0.8, 0.6, 0} : Finset ℚ)) ∧
      (occ (x + (aoOffsets dx dy dz v0 v1 v2 v3 vtx).1)
          (y + (aoOffsets dx dy dz v0 v1 v2 v3 vtx).2.1)
          (z + (aoOffsets dx dy dz v0 v1 v2 v3 vtx).2.2.1) = true →
       occ (x + (aoOffsets dx dy dz v0 v1 v2 v3 vtx).2.2.2.1)
          (y + (aoOffsets dx dy dz v0 v1 v2 v3 vtx).2.2.2.2.1)
          (z + (aoOffsets dx dy dz v0 v1 v2 v3 vtx).2.2.2.2.2) = true →
       calcVertAO occ x y z dx dy dz v0 v1 v2 v3 vtx = 0) ∧
      (∀ (bID : ℕ) (look : ℤ → ℤ → ℤ → ℕ) (cx cz : ℤ) (s hgt : ℚ),
        faceAO false bID look cx cz x y z dx dy dz s hgt = (1, 1, 1, 1)) := by
  intro occ x y z dx dy dz v0 v1 v2 v3 vtx
  refine ⟨?_, ?_, ?_⟩
  · simp only [calcVertAO]
    exact aoValue_cases _ _ _
  · intro h1 h2
    simp only [calcVertAO, h1, h2]
    norm_num
  · intro bID look cx cz s hgt
    simp [faceAO]

/-- Claim C6 amended, witness: the all-solid configuration at a concrete
face, with both hypotheses of the two-solid-neighbors clause discharged. -/
theorem C6_ao_amended_witness :
    calcVertAO (fun _ _ _ => true) 5 5 5 0 1 0 (0, 1, 1) (1, 1, 1) (1, 1, 0) (0, 1, 0)
      (0, 1, 1) = 0 ∧
    calcVertAO (fun _ _ _ => true) 5 5 5 0 1 0 (0, 1, 1) (1, 1, 1) (1, 1, 0) (0, 1, 0)
      (0, 1, 1) ∈ ({1, 0.8, 0.6, 0} : Finset ℚ) ∧
    faceAO false STONE (fun _ _ _ => STONE) 0 0 5 5 5 0 1 0 1 1 = (1, 1, 1, 1) := by
  have h := C6_ao_amended (fun _ _ _ => true) 5 5 5 0 1 0 (0, 1, 1) (1, 1, 1) (1, 1, 0)
    (0, 1, 0) (0, 1, 1)
  exact ⟨h.2.1 rfl rfl, h.1, h.2.2 STONE (fun _ _ _ => STONE) 0 0 1 1⟩

theorem isTransparent_false_not_water (b : ℕ) (h : isTransparent b = false) :
    isWater b = false := by
  by_contra hc
  rw [Bool.not_eq_false] at hc
  rw [water_imp_transparent b hc] at h
  simp at h

theorem isTransparent_false_not_cross (b : ℕ) (h : isTransparent b = false) :
    ((BLOCK_PROPS b).getD {}).cross.getD false = false := by
  by_contra hc
  rw [Bool.not_eq_false] at hc
  rw [cross_imp_transparent b hc] at h
  simp at h

theorem isTransparent_false_not_torch (b : ℕ) (h : isTransparent b = false) : b ≠ TORCH := by
  intro hb
  subst hb
  rw [torch_transparent] at h
  simp at h

/-- All-solid surroundings cull every face. -/
theorem meshCheck_all_solid (data : VoxelData) (look : ℤ → ℤ → ℤ → ℕ) (cx cz : ℤ)
    (bID : ℕ) (x z y : ℕ) (dx dy dz : ℤ)
    (hData : ∀ i, isTransparent (data i) = false)
    (hLook : ∀ a b c, isTransparent (look a b c) = false) :
    meshCheck data look cx cz bID x z y dx dy dz = false := by
  unfold meshCheck
  dsimp only
  split
  · rw [hData]
    rfl
  · rw [hLook]
    rfl

theorem cellFaceCount_all_solid (data : VoxelData) (look : ℤ → ℤ → ℤ → ℕ) (cx cz : ℤ)
    (bID : ℕ) (x z y : ℕ)
    (hb : isTransparent bID = false)
    (hData : ∀ i, isTransparent (data i) = false)
    (hLook : ∀ a b c, isTransparent (look a b c) = false) :
    cellFaceCount data look cx cz bID x z y = 0 := by
  unfold cellFaceCount
  dsimp only
  rw [if_neg (by rw [isTransparent_false_not_cross bID hb]; simp),
    if_neg (isTransparent_false_not_torch bID hb)]
  rw [meshCheck_all_solid data look cx cz bID x z y 1 0 0 hData hLook,
    meshCheck_all_solid data look cx cz bID x z y (-1) 0 0 hData hLook,
    meshCheck_all_solid data look cx cz bID x z y 0 1 0 hData hLook,
    meshCheck_all_solid data look cx cz bID x z y 0 (-1) 0 hData hLook,
    meshCheck_all_solid data look cx cz bID x z y 0 0 1 hData hLook,
    meshCheck_all_solid data look cx cz bID x z y 0 0 (-1) hData hLook]
  rfl

/-- Around a lone voxel, every side of it sees air (inside or outside the
chunk), so every one of its six faces passes the culling test. -/
theorem meshCheck_single_true (look : ℤ → ℤ → ℤ → ℕ) (cx cz : ℤ)
    (b0 x0 z0 y0 : ℕ) (dx dy dz : ℤ)
    (hx : x0 < 16) (hz : z0 < 16) (hy : y0 < 256)
    (hb : isTransparent b0 = false)
    (hd : (-1 ≤ dx ∧ dx ≤ 1) ∧ (-1 ≤ dy ∧ dy ≤ 1) ∧ (-1 ≤ dz ∧ dz ≤ 1) ∧
      ¬(dx = 0 ∧ dy = 0 ∧ dz = 0))
    (hLook : ∀ a b c, look a b c = AIR) :
    meshCheck (fun i => if i = x0 + z0 * 16 + y0 * 256 then b0 else AIR) look cx cz
      b0 x0 z0 y0 dx dy dz = true := by
  have hW : isWater b0 = false := isTransparent_false_not_water b0 hb
  unfold meshCheck
  dsimp only
  split
  · rename_i hin
    have hne : (((x0 : ℤ) + dx) + ((z0 : ℤ) + dz) * 16 + ((y0 : ℤ) + dy) * 256).toNat ≠
        x0 + z0 * 16 + y0 * 256 := by
      omega
    rw [if_neg hne, hW]
    rfl
  · rw [hLook, hW]
    rfl

theorem cellFaceCount_single (look : ℤ → ℤ → ℤ → ℕ) (cx cz : ℤ) (b0 x0 z0 y0 : ℕ)
    (hx : x0 < 16) (hz : z0 < 16) (hy : y0 < 256)
    (hb : isTransparent b0 = false)
    (hLook : ∀ a b c, look a b c = AIR) :
    cellFaceCount (fun i => if i = x0 + z0 * 16 + y0 * 256 then b0 else AIR) look cx cz
      b0 x0 z0 y0 = 6 := by
  unfold cellFaceCount
  dsimp only
  rw [if_neg (by rw [isTransparent_false_not_cross b0 hb]; simp),
    if_neg (isTransparent_false_not_torch b0 hb)]
  rw [meshCheck_single_true look cx cz b0 x0 z0 y0 1 0 0 hx hz hy hb (by decide) hLook,
    meshCheck_single_true look cx cz b0 x0 z0 y0 (-1) 0 0 hx hz hy hb (by decide) hLook,
    meshCheck_single_true look cx cz b0 x0 z0 y0 0 1 0 hx hz hy hb (by decide) hLook,
    meshCheck_single_true look cx cz b0 x0 z0 y0 0 (-1) 0 hx hz hy hb (by decide) hLook,
    meshCheck_single_true look cx cz b0 x0 z0 y0 0 0 1 hx hz hy hb (by decide) hLook,
    meshCheck_single_true look cx cz b0 x0 z0 y0 0 0 (-1) hx hz hy hb (by decide) hLook]
  rfl

/-- Claim C5: meshing a buffer in which every cell is non-transparent,
with a neighbor lookup reporting every outside cell non-transparent,
emits zero faces; meshing a buffer holding exactly one non-transparent
block (a real table block) with everything else air and an all-air
neighbor lookup emits exactly 6 faces. -/
theorem C5_mesh_face_invariant :
    (∀ (data : VoxelData) (look : ℤ → ℤ → ℤ → ℕ) (cx cz : ℤ),
      (∀ i, isTransparent (data i) = false) →
      (∀ a b c, isTransparent (look a b c) = false) →
      generateChunkMeshFaceCount data look cx cz = 0) ∧
    (∀ (look : ℤ → ℤ → ℤ → ℕ) (cx cz : ℤ) (b0 x0 z0 y0 : ℕ),
      x0 < 16 → z0 < 16 → y0 < 256 → 0 < b0 → b0 < 48 →
      isTransparent b0 = false →
      (∀ a b c, look a b c = AIR) →
      generateChunkMeshFaceCount
        (fun i => if i = x0 + z0 * 16 + y0 * 256 then b0 else AIR) look cx cz = 6) := by
  constructor
  · intro data look cx cz hData hLook
    unfold generateChunkMeshFaceCount
    apply Finset.sum_eq_zero
    intro bID _
    split
    · rfl
    · apply Finset.sum_eq_zero
      intro x _
      apply Finset.sum_eq_zero
      intro z _
      apply Finset.sum_eq_zero
      intro y _
      split
      · rename_i hcell
        exact cellFaceCount_all_solid data look cx cz bID x z y (hcell ▸ hData _) hData hLook
      · rfl
  · intro look cx cz b0 x0 z0 y0 hx hz hy hb0 hb48 htr hLook
    unfold generateChunkMeshFaceCount
    have hzero : ∀ (x z y : ℕ), x < 16 → z < 16 → y < 256 → ¬(x = x0 ∧ z = z0 ∧ y = y0) →
        (if (fun i => if i = x0 + z0 * 16 + y0 * 256 then b0 else AIR)
            (x + z * 16 + y * 256) = b0 then
          cellFaceCount (fun i => if i = x0 + z0 * 16 + y0 * 256 then b0 else AIR)
            look cx cz b0 x z y
        else 0) = 0 := by
      intro x z y hxb hzb hyb hne
      have hval : (fun i => if i = x0 + z0 * 16 + y0 * 256 then b0 else AIR)
          (x + z * 16 + y * 256) ≠ b0 := by
        dsimp only
        by_cases hidx : x + z * 16 + y * 256 = x0 + z0 * 16 + y0 * 256
        · exact absurd ⟨by omega, by omega, by omega⟩ hne
        · rw [if_neg hidx]
          simp only [AIR]
          omega
      rw [if_neg hval]
    rw [Finset.sum_eq_single_of_mem b0 (Finset.mem_range.mpr hb48)]
    · rw [if_neg (by simp only [AIR]; omega)]
      rw [Finset.sum_eq_single_of_mem x0 (Finset.mem_range.mpr hx)]
      · rw [Finset.sum_eq_single_of_mem z0 (Finset.mem_range.mpr hz)]
        · rw [Finset.sum_eq_single_of_mem y0 (Finset.mem_range.mpr hy)]
          · rw [if_pos (by simp)]
            exact cellFaceCount_single look cx cz b0 x0 z0 y0 hx hz hy htr hLook
          · intro y hymem hyne
            exact hzero x0 z0 y hx hz (Finset.mem_range.mp hymem) (by tauto)
        · intro z hzmem hzne
          apply Finset.sum_eq_zero
          intro y hymem
          exact hzero x0 z y hx (Finset.mem_range.mp hzmem) (Finset.mem_range.mp hymem)
            (by tauto)
      · intro x hxmem hxne
        apply Finset.sum_eq_zero
        intro z hzmem
        apply Finset.sum_eq_zero
        intro y hymem
        exact hzero x z y (Finset.mem_range.mp hxmem) (Finset.mem_range.mp hzmem)
          (Finset.mem_range.mp hymem) (by tauto)
    · intro bID hbmem hbne
      split
      · rfl
      · rename_i hbid0
        apply Finset.sum_eq_zero
        intro x _
        apply Finset.sum_eq_zero
        intro z _
        apply Finset.sum_eq_zero
        intro y _
        have hval : (fun i => if i = x0 + z0 * 16 + y0 * 256 then b0 else AIR)
            (x + z * 16 + y * 256) ≠ bID := by
          dsimp only
          split
          · intro hcon
            exact hbne hcon.symm
          · simp only [AIR]
            intro hcon
            exact hbid0 hcon.symm
        rw [if_neg hval]

/-- Claim C5, witness: the constant stone buffer with an all-stone lookup,
and a lone stone voxel at (8, 8, 100) with an all-air lookup. -/
theorem C5_mesh_face_invariant_witness :
    generateChunkMeshFaceCount (fun _ => STONE) (fun _ _ _ => STONE) 0 0 = 0 ∧
    generateChunkMeshFaceCount
      (fun i => if i = 8 + 8 * 16 + 100 * 256 then STONE else AIR) (fun _ _ _ => AIR) 0 0 = 6 := by
  constructor
  · exact C5_mesh_face_invariant.1 (fun _ => STONE) (fun _ _ _ => STONE) 0 0
      (fun i => by change isTransparent STONE = false; with_unfolding_all decide)
      (fun a b c => by change isTransparent STONE = false; with_unfolding_all decide)
  · exact C5_mesh_face_invariant.2 (fun _ _ _ => AIR) 0 0 STONE 8 8 100
      (by norm_num) (by norm_num) (by norm_num) (by norm_num [STONE]) (by norm_num [STONE])
      (by with_unfolding_all decide) (fun a b c => rfl)

/-- Claim C10 counterexample: the claim states that the mining speed
multiplier equals the held item efficiency regardless of tool category
match, because the condition allegedly compares the block tool type with
itself.  The source condition (Engine.ts line 613) in fact compares the
held item descriptor tool type with the block descriptor tool type:
holding a wooden axe (efficiency 2) while mining stone (requires pickaxe)
gives speed 1, not 2. -/
theorem C10_counterexample :
    miningSpeed STONE (some ⟨WOODEN_AXE, 1⟩) = 1 ∧
    ((BLOCK_PROPS WOODEN_AXE).getD {}).efficiency = some 2 ∧
    ((BLOCK_PROPS STONE).getD {}).toolType = some ToolType.pickaxe ∧
    ((BLOCK_PROPS WOODEN_AXE).getD {}).toolType = some ToolType.axe ∧
    (1 : ℚ) ≠ 2 := by
  refine ⟨?_, ?_, ?_, ?_, ?_⟩ <;> with_unfolding_all decide

/-- Claim C10 as amended: when the target block names a required tool
type, the applied mining speed equals the held item efficiency exactly
when the held item carries the same tool category (and a nonzero
efficiency); when the tool categories differ the speed stays 1. -/
theorem C10_mining_speed_amended :
    ∀ (b i : ℕ) (c : ℤ) (t : ToolType) (e : ℚ),
      (((BLOCK_PROPS b).getD {}).toolType = some t →
       ((BLOCK_PROPS i).getD {}).toolType = some t →
       ((BLOCK_PROPS i).getD {}).efficiency = some e → e ≠ 0 →
       miningSpeed b (some ⟨i, c⟩) = e) ∧
      (((BLOCK_PROPS i).getD {}).toolType ≠ ((BLOCK_PROPS b).getD {}).toolType →
       miningSpeed b (some ⟨i, c⟩) = 1) := by
  intro b i c t e
  constructor
  · intro hb hi he hz
    unfold miningSpeed
    simp only [hb, hi, he]
    simp [hz]
  · intro hne
    unfold miningSpeed
    dsimp only
    rw [if_neg]
    · norm_num
    · rintro ⟨-, heq⟩
      exact hne heq

/-- Unfolding one overlay entry of applyModifications. -/
theorem applyModifications_cons (cx cz : ℤ) (d : VoxelData) (e : (ℤ × ℤ × ℤ) × ℕ)
    (rest : List ((ℤ × ℤ × ℤ) × ℕ)) :
    applyModifications cx cz d (e :: rest) =
      applyModifications cx cz
        (if cx * 16 ≤ e.1.1 ∧ e.1.1 < (cx + 1) * 16 ∧ cz * 16 ≤ e.1.2.2 ∧
            e.1.2.2 < (cz + 1) * 16 ∧ 0 ≤ e.1.2.1 ∧ e.1.2.1 < 256 then
          bufWrite d (jsWrapMod16 e.1.1 + jsWrapMod16 e.1.2.2 * 16 + e.1.2.1 * 256) e.2
        else d) rest := rfl

/-- Overlay entries with other coordinates never disturb the cell of an
in-chunk coordinate: distinct in-chunk coordinates give distinct buffer
indices. -/
theorem applyModifications_preserves :
    ∀ (l : List ((ℤ × ℤ × ℤ) × ℕ)) (cx cz : ℤ) (d : VoxelData) (gx gy gz : ℤ),
      (∀ p ∈ l, p.1 ≠ (gx, gy, gz)) →
      cx * 16 ≤ gx → gx < (cx + 1) * 16 →
      cz * 16 ≤ gz → gz < (cz + 1) * 16 →
      0 ≤ gy → gy < 256 →
      applyModifications cx cz d l
        ((jsWrapMod16 gx + jsWrapMod16 gz * 16 + gy * 256).toNat) =
        d ((jsWrapMod16 gx + jsWrapMod16 gz * 16 + gy * 256).toNat) := by
  intro l
  induction l with
  | nil =>
    intro cx cz d gx gy gz _ _ _ _ _ _ _
    rfl
  | cons e rest ih =>
    rintro cx cz d gx gy gz hkeys h1 h2 h3 h4 h5 h6
    rw [applyModifications_cons]
    rw [ih cx cz _ gx gy gz (fun p hp => hkeys p (List.mem_cons_of_mem _ hp)) h1 h2 h3 h4 h5 h6]
    split
    · rename_i hin
      unfold bufWrite
      rw [if_neg]
      rintro ⟨hj, -, -⟩
      have hne := hkeys e (List.mem_cons_self _ _)
      have htn : ((jsWrapMod16 gx + jsWrapMod16 gz * 16 + gy * 256).toNat : ℤ) =
          jsWrapMod16 gx + jsWrapMod16 gz * 16 + gy * 256 := by
        have hbx := jsWrapMod16_bounds gx
        have hbz := jsWrapMod16_bounds gz
        omega
      rw [htn] at hj
      rw [jsWrapMod16_eq_emod, jsWrapMod16_eq_emod, jsWrapMod16_eq_emod,
        jsWrapMod16_eq_emod] at hj
      obtain ⟨hin1, hin2, hin3, hin4, hin5, hin6⟩ := hin
      apply hne
      have hgx : gx = e.1.1 := by omega
      have hgy : gy = e.1.2.1 := by omega
      have hgz : gz = e.1.2.2 := by omega
      rw [Prod.ext_iff, Prod.ext_iff]
      exact ⟨hgx.symm, hgy.symm, hgz.symm⟩
    · rfl

/-- The value of the generated buffer at an in-chunk overlay coordinate is
the overlay value: the entry itself writes it and, the overlay keys being
distinct (it is a JavaScript Map), no later entry can hit the same cell. -/
theorem applyModifications_overlay_value :
    ∀ (l : List ((ℤ × ℤ × ℤ) × ℕ)) (cx cz : ℤ) (d : VoxelData) (gx gy gz : ℤ) (v : ℕ),
      (l.map Prod.fst).Nodup →
      ((gx, gy, gz), v) ∈ l →
      cx * 16 ≤ gx → gx < (cx + 1) * 16 →
      cz * 16 ≤ gz → gz < (cz + 1) * 16 →
      0 ≤ gy → gy < 256 →
      applyModifications cx cz d l
        ((jsWrapMod16 gx + jsWrapMod16 gz * 16 + gy * 256).toNat) = v := by
  intro l
  induction l with
  | nil =>
    intro cx cz d gx gy gz v _ hmem
    simp at hmem
  | cons e rest ih =>
    rintro cx cz d gx gy gz v hnd hmem h1 h2 h3 h4 h5 h6
    rw [applyModifications_cons]
    rcases List.mem_cons.mp hmem with heq | hmem2
    · subst heq
      dsimp only
      rw [if_pos ⟨h1, h2, h3, h4, h5, h6⟩]
      have hkeys : ∀ p ∈ rest, p.1 ≠ (gx, gy, gz) := by
        intro p hp hpk
        have hnotin : (gx, gy, gz) ∉ rest.map Prod.fst := by
          have := List.nodup_cons.mp hnd
          simpa using this.1
        exact hnotin (hpk ▸ List.mem_map_of_mem Prod.fst hp)
      rw [applyModifications_preserves rest cx cz _ gx gy gz hkeys h1 h2 h3 h4 h5 h6]
      unfold bufWrite
      rw [if_pos]
      have hbx := jsWrapMod16_bounds gx
      have hbz := jsWrapMod16_bounds gz
      refine ⟨by omega, by omega, by omega⟩
    · exact ih cx cz _ gx gy gz v (List.nodup_cons.mp hnd).2 hmem2 h1 h2 h3 h4 h5 h6

/-- Claim C3: for every overlay entry whose coordinate lies inside the
generated chunk horizontal extent and inside [0, H), the buffer returned by
generateChunkData holds exactly the overlay block value at that cell,
whatever terrain synthesis, cave carving and decoration produced there,
and in Flat mode as well: applyModifications runs unconditionally last in
both branches of generateChunkData. -/
theorem C3_overlay_precedence :
    ∀ (o : GenOracle) (offset : ℚ) (cx cz : ℤ) (seed : ℚ) (worldType : WorldType)
      (modifiedBlocks : List ((ℤ × ℤ × ℤ) × ℕ)) (gx gy gz : ℤ) (v : ℕ),
      (modifiedBlocks.map Prod.fst).Nodup →
      ((gx, gy, gz), v) ∈ modifiedBlocks →
      cx * 16 ≤ gx → gx < (cx + 1) * 16 →
      cz * 16 ≤ gz → gz < (cz + 1) * 16 →
      0 ≤ gy → gy < 256 →
      generateChunkData o offset cx cz seed worldType modifiedBlocks
        ((jsWrapMod16 gx + jsWrapMod16 gz * 16 + gy * 256).toNat) = v := by
  intro o offset cx cz seed wt mb gx gy gz v hnd hmem h1 h2 h3 h4 h5 h6
  unfold generateChunkData
  split
  · exact applyModifications_overlay_value mb cx cz _ gx gy gz v hnd hmem h1 h2 h3 h4 h5 h6
  · exact applyModifications_overlay_value mb cx cz _ gx gy gz v hnd hmem h1 h2 h3 h4 h5 h6

/-- Claim C3, witness: a single overlay entry placing brick at (3, 10, 5)
inside chunk (0, 0) of a Flat world. -/
theorem C3_overlay_precedence_witness :
    generateChunkData cexOracle1 0 0 0 0 WorldType.Flat [((3, 10, 5), BRICK)]
      ((jsWrapMod16 3 + jsWrapMod16 5 * 16 + (10 : ℤ) * 256).toNat) = BRICK :=
  C3_overlay_precedence cexOracle1 0 0 0 0 WorldType.Flat [((3, 10, 5), BRICK)] 3 10 5 BRICK
    (by simp) (by simp) (by norm_num) (by norm_num) (by norm_num) (by norm_num)
    (by norm_num) (by norm_num)

/-- Pointwise description of one streaming pass. -/
theorem updateWorldChunks_chunks (o : GenOracle) (w : WorldState) (c : ℤ × ℤ) :
    (updateWorldChunks o w).chunks c =
      if |c.1 - viewChunkX w| > w.renderDistance + 2 ∨
          |c.2 - viewChunkZ w| > w.renderDistance + 2 then none
      else
        match w.chunks c with
        | some d => some d
        | none =>
          if viewChunkX w - w.renderDistance ≤ c.1 ∧ c.1 ≤ viewChunkX w + w.renderDistance ∧
              viewChunkZ w - w.renderDistance ≤ c.2 ∧ c.2 ≤ viewChunkZ w + w.renderDistance then
            some (generateChunkData o (w.seed * 10000) c.1 c.2 w.seed w.worldType
              w.modifiedBlocks)
          else none := rfl

/-- Claim C7: one streaming pass from the empty store with viewpoint chunk
(0, 0) and radius 2 leaves exactly the 25 chunks of [-2, 2] x [-2, 2]
resident; and after any pass, every chunk whose Chebyshev distance from the
viewpoint chunk exceeds radius+2 is evicted while every chunk inside the
radius square is resident. -/
theorem C7_streaming :
    (∀ (o : GenOracle) (c : ℤ × ℤ),
      ((updateWorldChunks o baseWorld).chunks c).isSome ↔
        (-2 ≤ c.1 ∧ c.1 ≤ 2 ∧ -2 ≤ c.2 ∧ c.2 ≤ 2)) ∧
    (∀ (o : GenOracle) (w : WorldState) (c : ℤ × ℤ),
      (max |c.1 - viewChunkX w| |c.2 - viewChunkZ w| > w.renderDistance + 2 →
        (updateWorldChunks o w).chunks c = none) ∧
      (|c.1 - viewChunkX w| ≤ w.renderDistance ∧ |c.2 - viewChunkZ w| ≤ w.renderDistance →
        ((updateWorldChunks o w).chunks c).isSome)) := by
  constructor
  · intro o c
    rw [updateWorldChunks_chunks]
    have h1 : viewChunkX baseWorld = 0 := by norm_num [viewChunkX, baseWorld]
    have h2 : viewChunkZ baseWorld = 0 := by norm_num [viewChunkZ, baseWorld]
    have h3 : baseWorld.renderDistance = 2 := rfl
    have h4 : baseWorld.chunks c = none := rfl
    rw [h1, h2, h3, h4]
    split_ifs with hev hsq
    · simp only [Option.isSome_none, Bool.false_eq_true, false_iff]
      rintro ⟨a1, a2, a3, a4⟩
      rcases hev with h | h
      · rw [gt_iff_lt, lt_abs] at h
        omega
      · rw [gt_iff_lt, lt_abs] at h
        omega
    · simp only [Option.isSome_some, true_iff]
      omega
    · simp only [Option.isSome_none, Bool.false_eq_true, false_iff]
      rintro ⟨a1, a2, a3, a4⟩
      exact hsq ⟨by omega, by omega, by omega, by omega⟩
  · intro o w c
    constructor
    · intro hfar
      rw [updateWorldChunks_chunks]
      rw [if_pos]
      rcases lt_max_iff.mp hfar with h | h
      · exact Or.inl h
      · exact Or.inr h
    · rintro ⟨hnx, hnz⟩
      rw [updateWorldChunks_chunks]
      rw [if_neg (by omega)]
      rw [abs_le] at hnx hnz
      rcases hc : w.chunks c with _ | d
      · simp only []
        rw [if_pos ⟨by omega, by omega, by omega, by omega⟩]
        rfl
      · rfl

/-- Claim C7, witness: on the one-chunk world the pass evicts chunk
(9, 0) and keeps chunk (1, 1) resident. -/
theorem C7_streaming_witness :
    (updateWorldChunks cexOracle1 stoneWorld).chunks (9, 0) = none ∧
    ((updateWorldChunks cexOracle1 stoneWorld).chunks (1, 1)).isSome := by
  constructor
  · exact (C7_streaming.2 cexOracle1 stoneWorld (9, 0)).1 (by with_unfolding_all decide)
  · exact (C7_streaming.2 cexOracle1 stoneWorld (1, 1)).2 (by with_unfolding_all decide)

/-- The unbreakable guard of updateMiningAt: a target whose descriptor
reports negative hardness stops mining without touching the chunk store or
the overlay. -/
theorem updateMiningAt_guard (w : WorldState) (dt : ℚ) (t : ℤ × ℤ × ℤ)
    (nextHit : Option (ℤ × ℤ × ℤ)) (q : ℚ)
    (hq : ((BLOCK_PROPS (getBlock w t.1 t.2.1 t.2.2)).getD {}).hardness = some q)
    (hneg : q < 0) (hmode : w.gameMode ≠ GameMode.Creative) :
    (updateMiningAt w dt t nextHit).chunks = w.chunks ∧
    (updateMiningAt w dt t nextHit).modifiedBlocks = w.modifiedBlocks := by
  unfold updateMiningAt
  dsimp only
  split
  · exact ⟨rfl, rfl⟩
  · rw [if_pos ⟨by rw [hq]; simpa using hneg, hmode⟩]
    exact ⟨rfl, rfl⟩

/-- Claim C8: targeting a block whose descriptor hardness is negative while
the game mode is not Creative leaves both every resident voxel buffer and
the modification overlay unchanged, through startMining as well as through
updateMining (the startMining guard tests hardness === -1, and every
negative hardness in the table is exactly -1). -/
theorem C8_unbreakable_guard :
    ∀ (w : WorldState) (t : ℤ × ℤ × ℤ) (q dt : ℚ) (nextHit : Option (ℤ × ℤ × ℤ)),
      ((BLOCK_PROPS (getBlock w t.1 t.2.1 t.2.2)).getD {}).hardness = some q →
      q < 0 →
      w.gameMode ≠ GameMode.Creative →
      (startMining w (some t)).chunks = w.chunks ∧
      (startMining w (some t)).modifiedBlocks = w.modifiedBlocks ∧
      (updateMining w dt (some t) nextHit).chunks = w.chunks ∧
      (updateMining w dt (some t) nextHit).modifiedBlocks = w.modifiedBlocks := by
  intro w t q dt nextHit hq hneg hmode
  have hq1 : q = -1 := hardness_neg_eq_neg_one _ q hq hneg
  subst hq1
  have hstart : startMining w (some t) = w := by
    unfold startMining
    dsimp only
    split
    · rw [if_pos ⟨hq, hmode⟩]
    · rfl
  have hupd : (updateMining w dt (some t) nextHit).chunks = w.chunks ∧
      (updateMining w dt (some t) nextHit).modifiedBlocks = w.modifiedBlocks := by
    unfold updateMining
    split
    · exact ⟨rfl, rfl⟩
    · dsimp only
      have hB : ∀ w2 : WorldState, w2.chunks = w.chunks → w2.modifiedBlocks = w.modifiedBlocks →
          w2.gameMode = w.gameMode →
          (updateMiningAt w2 dt t nextHit).chunks = w.chunks ∧
          (updateMiningAt w2 dt t nextHit).modifiedBlocks = w.modifiedBlocks := by
        intro w2 hc hm hg
        have hgb : getBlock w2 t.1 t.2.1 t.2.2 = getBlock w t.1 t.2.1 t.2.2 := by
          unfold getBlock
          rw [hc]
        have hq2 : ((BLOCK_PROPS (getBlock w2 t.1 t.2.1 t.2.2)).getD {}).hardness =
            some (-1) := by rw [hgb, hq]
        have hres := updateMiningAt_guard w2 dt t nextHit (-1) hq2 (by norm_num)
          (by rw [hg]; exact hmode)
        exact ⟨by rw [hres.1, hc], by rw [hres.2, hm]⟩
      apply hB
      · split <;> rfl
      · split <;> rfl
      · split <;> rfl
  exact ⟨by rw [hstart], by rw [hstart], hupd.1, hupd.2⟩

/-- Claim C8, witness: a water cell (hardness -1) targeted in survival on
the all-water world. -/
theorem C8_unbreakable_guard_witness :
    (startMining waterWorld (some (1, 2, 3))).chunks = waterWorld.chunks ∧
    (startMining waterWorld (some (1, 2, 3))).modifiedBlocks = waterWorld.modifiedBlocks ∧
    (updateMining waterWorld 0.1 (some (1, 2, 3)) none).chunks = waterWorld.chunks ∧
    (updateMining waterWorld 0.1 (some (1, 2, 3)) none).modifiedBlocks =
      waterWorld.modifiedBlocks :=
  C8_unbreakable_guard waterWorld (1, 2, 3) (-1) 0.1 none
    (by with_unfolding_all decide) (by norm_num) (by with_unfolding_all decide)

/-- scheduleFluidUpdate preserves the queue invariant: a coordinate
already pending is not re-queued, a fresh one is appended and recorded. -/
theorem qinv_schedule (w : WorldState) (x y z : ℤ) (h : QueueInv w) :
    QueueInv (scheduleFluidUpdate w x y z) := by
  unfold scheduleFluidUpdate
  split
  · exact h
  · rename_i hnotmem
    obtain ⟨hnd, hiff⟩ := h
    constructor
    · rw [List.nodup_append]
      refine ⟨hnd, List.nodup_singleton _, ?_⟩
      intro a ha hb
      simp only [List.mem_singleton] at hb
      subst hb
      exact hnotmem ((hiff _).mpr ha)
    · intro c
      simp only [Finset.mem_insert, List.mem_append, List.mem_singleton, hiff c]
      tauto

/-- setBlock never touches the fluid queue or its membership set. -/
theorem setBlock_fluid_fields (w : WorldState) (x y z : ℤ) (id : ℕ) :
    (setBlock w x y z id).fluidQueue = w.fluidQueue ∧
    (setBlock w x y z id).fluidQueueSet = w.fluidQueueSet := by
  unfold setBlock
  rcases hch : w.chunks (x.fdiv 16, z.fdiv 16) with _ | d <;> simp [hch]

theorem qinv_setBlock (w : WorldState) (x y z : ℤ) (id : ℕ) (h : QueueInv w) :
    QueueInv (setBlock w x y z id) := by
  obtain ⟨h1, h2⟩ := setBlock_fluid_fields w x y z id
  unfold QueueInv
  rw [h1, h2]
  exact h

theorem qinv_fluidSpreadStep (x y z : ℤ) (w : WorldState) (n : ℤ × ℤ) (h : QueueInv w) :
    QueueInv (fluidSpreadStep x y z w n) := by
  unfold fluidSpreadStep
  dsimp only
  split
  · exact qinv_schedule _ _ _ _ (qinv_setBlock _ _ _ _ _ h)
  · exact h

theorem qinv_fluidSpread_foldl (x y z : ℤ) (l : List (ℤ × ℤ)) :
    ∀ w : WorldState, QueueInv w → QueueInv (l.foldl (fluidSpreadStep x y z) w) := by
  induction l with
  | nil => intro w h; exact h
  | cons n rest ih =>
    intro w h
    exact ih _ (qinv_fluidSpreadStep x y z w n h)

theorem qinv_fluidDown (w : WorldState) (x y z : ℤ) (h : QueueInv w) :
    QueueInv (fluidDown w x y z) := by
  unfold fluidDown
  dsimp only
  split
  · split
    · split
      · exact qinv_schedule _ _ _ _ (qinv_setBlock _ _ _ _ _ h)
      · exact h
    · exact h
  · exact h

theorem qinv_fluidCell (w : WorldState) (x y z : ℤ) (h : QueueInv w) :
    QueueInv (fluidCell w x y z) := by
  unfold fluidCell
  dsimp only
  have hdown := qinv_fluidDown w x y z h
  split
  · split
    · split
      · exact qinv_fluidSpread_foldl x y z _ _ hdown
      · exact hdown
    · exact hdown
  · exact h

/-- Dequeuing the head preserves the invariant: the tail stays duplicate
free and erasing the head from the set leaves exactly the tail members. -/
theorem qinv_dequeue (w : WorldState) (c : ℤ × ℤ × ℤ) (rest : List (ℤ × ℤ × ℤ))
    (h : QueueInv w) (hq : w.fluidQueue = c :: rest) :
    QueueInv { w with fluidQueue := rest, fluidQueueSet := w.fluidQueueSet.erase c } := by
  obtain ⟨hnd, hiff⟩ := h
  rw [hq] at hnd
  have hcnot : c ∉ rest := (List.nodup_cons.mp hnd).1
  refine ⟨(List.nodup_cons.mp hnd).2, ?_⟩
  intro d
  simp only [Finset.mem_erase, hiff d, hq, List.mem_cons]
  constructor
  · rintro ⟨hne, hd | hd⟩
    · exact absurd hd hne
    · exact hd
  · intro hd
    exact ⟨fun hedc => hcnot (hedc ▸ hd), Or.inr hd⟩

theorem qinv_processFluidsLoop :
    ∀ (n : ℕ) (w : WorldState), QueueInv w → QueueInv (processFluidsLoop n w) := by
  intro n
  induction n with
  | zero => intro w h; exact h
  | succ m ih =>
    intro w h
    unfold processFluidsLoop
    rcases hq : w.fluidQueue with _ | ⟨c, rest⟩
    · exact h
    · exact ih _ (qinv_fluidCell _ _ _ _ (qinv_dequeue w c rest h hq))

/-- Unfolding one step of the drain loop when the queue has a head. -/
theorem processFluidsLoop_succ (n : ℕ) (w : WorldState) (c : ℤ × ℤ × ℤ)
    (rest : List (ℤ × ℤ × ℤ)) (h : w.fluidQueue = c :: rest) :
    processFluidsLoop (n + 1) w =
      processFluidsLoop n
        (fluidCell { w with fluidQueue := rest, fluidQueueSet := w.fluidQueueSet.erase c }
          c.1 c.2.1 c.2.2) := by
  conv_lhs => unfold processFluidsLoop
  rw [h]

/-- Claim C9: the fluid queue and its membership set keep the invariant
(at most one pending entry per coordinate, set = queued coordinates)
through every scheduleFluidUpdate and through processFluids; scheduling
appends at the tail and never duplicates, and the drain dequeues the
queue head first (FIFO). -/
theorem C9_fluid_queue_invariant :
    ∀ (w : WorldState) (x y z : ℤ),
      QueueInv w →
      QueueInv (scheduleFluidUpdate w x y z) ∧
      (scheduleFluidUpdate w x y z).fluidQueue =
        (if (x, y, z) ∈ w.fluidQueueSet then w.fluidQueue
         else w.fluidQueue ++ [(x, y, z)]) ∧
      QueueInv (processFluids w) ∧
      (∀ (c : ℤ × ℤ × ℤ) (rest : List (ℤ × ℤ × ℤ)), w.fluidQueue = c :: rest →
        processFluids w =
          processFluidsLoop 499
            (fluidCell { w with fluidQueue := rest, fluidQueueSet := w.fluidQueueSet.erase c }
              c.1 c.2.1 c.2.2)) := by
  intro w x y z h
  refine ⟨qinv_schedule w x y z h, ?_, ?_, ?_⟩
  · unfold scheduleFluidUpdate
    split
    · rfl
    · rfl
  · unfold processFluids
    split
    · exact h
    · exact qinv_processFluidsLoop 500 w h
  · intro c rest hq
    unfold processFluids
    rw [if_neg (by rw [hq]; exact List.cons_ne_nil c rest)]
    have h500 : (500 : ℕ) = 499 + 1 := rfl
    rw [h500, processFluidsLoop_succ 499 w c rest hq]

/-- Claim C9, witness: the empty base world (whose invariant is trivially
established) scheduled at (1, 2, 3). -/
theorem C9_fluid_queue_invariant_witness :
    QueueInv (scheduleFluidUpdate baseWorld 1 2 3) ∧
    (scheduleFluidUpdate baseWorld 1 2 3).fluidQueue =
      (if ((1 : ℤ), (2 : ℤ), (3 : ℤ)) ∈ baseWorld.fluidQueueSet then baseWorld.fluidQueue
       else baseWorld.fluidQueue ++ [(1, 2, 3)]) ∧
    QueueInv (processFluids baseWorld) ∧
    (∀ (c : ℤ × ℤ × ℤ) (rest : List (ℤ × ℤ × ℤ)), baseWorld.fluidQueue = c :: rest →
      processFluids baseWorld =
        processFluidsLoop 499
          (fluidCell { baseWorld with fluidQueue := rest, fluidQueueSet := baseWorld.fluidQueueSet.erase c }
            c.1 c.2.1 c.2.2)) :=
  C9_fluid_queue_invariant baseWorld 1 2 3
    ⟨List.nodup_nil, fun c => by simp [baseWorld]⟩

/-- Claim C10 amended, witness: a stone pickaxe on stone gives its
efficiency 4; a wooden axe on stone gives 1. -/
theorem C10_mining_speed_amended_witness :
    miningSpeed STONE (some ⟨STONE_PICKAXE, 1⟩) = 4 ∧
    miningSpeed STONE (some ⟨WOODEN_AXE, 1⟩) = 1 := by
  constructor
  · exact (C10_mining_speed_amended STONE STONE_PICKAXE 1 ToolType.pickaxe 4).1
      (by with_unfolding_all decide) (by with_unfolding_all decide)
      (by with_unfolding_all decide) (by with_unfolding_all decide)
  · exact (C10_mining_speed_amended STONE WOODEN_AXE 1 ToolType.pickaxe 4).2
      (by with_unfolding_all decide)

end Minceraft
